import Mathlib

/-!
Verification development for the Aqualura aquarium-insight engine.

The definitions below are a shallow embedding of the TypeScript sources:
`src/services/calculationService.ts` (bio-load evaluator, compatibility
scanner, care-task scheduler, insight orchestrator),
`src/services/aquariumService.ts` (stock/task operations),
`src/data/fishSpecies.ts` (behavior matrix and species catalog),
`src/lib/store.ts` (in-memory data store) and `src/domain/types.ts`.

Modelling conventions:
* JavaScript `Date` values and ISO timestamp strings are modelled as `Int`
  milliseconds since the Unix epoch.  The server is assumed to run in the
  UTC timezone (no DST), so date-fns `differenceInCalendarDays` compares
  floor-divisions by the day length and `addDays` adds whole days.
* JavaScript `number` is modelled as `ℚ` (all arithmetic in the engine is
  exact decimal arithmetic on catalog data; `Math.round` and `toFixed`
  are modelled as explicit rational rounding).
* JavaScript `Map` objects are modelled as insertion-ordered association
  lists (`Map.set` replaces the first binding in place or appends).
* `crypto.randomUUID()` and `new Date()` are impure; they are passed in as
  explicit parameters (`fresh` id supplies and a `now` snapshot).
* Functions that mutate the global store return the updated store.
-/

/-! ## Time model (date-fns operations over UTC millisecond timestamps) -/

/-- Milliseconds since the Unix epoch (a JS `Date` / ISO string). -/
abbrev Time := Int

/-- Milliseconds in a day. -/
def dayMs : Int := 86400000

/-- Milliseconds in an hour. -/
def hourMs : Int := 3600000

/-- date-fns `addDays`. -/
def addDaysMs (t : Time) (n : Int) : Time := t + n * dayMs

/-- The UTC calendar day containing a timestamp. -/
def calendarDay (t : Time) : Int := Int.fdiv t dayMs

/-- date-fns `differenceInCalendarDays(a, b)`: whole calendar days from `b` to `a`. -/
def differenceInCalendarDays (a b : Time) : Int := calendarDay a - calendarDay b

/-- date-fns `isAfter(a, b)`. -/
def isAfter (a b : Time) : Bool := b < a

/-- JS `date.setUTCHours(h, 0, 0, 0)`: same calendar day, clock set to hour `h`. -/
def setUTCHours (t : Time) (h : Int) : Time := calendarDay t * dayMs + h * hourMs

/-! ## JS numeric rounding on rationals -/

/-- JS `Math.round`: round half towards positive infinity. -/
def jsRound (q : ℚ) : Int := ⌊q + 1 / 2⌋

/-- JS `Number(x.toFixed(1))` for the non-negative values arising here:
round to one decimal place. -/
def toFixed1 (q : ℚ) : ℚ := (⌊q * 10 + 1 / 2⌋ : ℚ) / 10

/-! ## Domain types (`src/domain/types.ts`) -/

inductive NotificationChannel
  | email
  | push
  | off
deriving DecidableEq, Repr

inductive NotificationPreferenceTime
  | morning
  | evening
  | any
deriving DecidableEq, Repr

inductive AquariumStatusLevel
  | comfort
  | elevated
  | critical
deriving DecidableEq, Repr

inductive CompatibilityStatus
  | ok
  | warn
deriving DecidableEq, Repr

inductive CareTaskStatus
  | active
  | completed
  | overdue
deriving DecidableEq, Repr

inductive CareTaskType
  | water_change
  | test_no3
  | test_no2
  | test_ph
  | test_gh
  | test_kh
  | test_ta
  | test_cl2
  | feeding
  | observe
deriving DecidableEq, Repr

inductive FishBehaviorCategory
  | peaceful
  | semi_aggressive
  | aggressive
  | predator
  | bottom_dweller
  | schooling
deriving DecidableEq, Repr

inductive FishSizeClass
  | juvenile
  | medium
  | large
deriving DecidableEq, Repr

inductive WaterParameterKey
  | NO3
  | NO2
  | Cl2
  | GH
  | TA
  | KH
  | pH
deriving DecidableEq, Repr

inductive SubscriptionPlan
  | free
  | premium
deriving DecidableEq, Repr

inductive AquariumType
  | freshwater
deriving DecidableEq, Repr

structure NotificationSettings where
  channel : NotificationChannel
  preferredTime : NotificationPreferenceTime
  timeZone : String
  /-- Optional boolean in TS; an absent field behaves as `false`. -/
  muteFeedingReminders : Bool
deriving DecidableEq, Repr

structure Subscription where
  plan : SubscriptionPlan
  startAt : Time
  endAt : Option Time
  aquariumLimit : Nat
deriving DecidableEq, Repr

structure User where
  id : String
  email : String
  passwordHash : String
  displayName : Option String
  notificationSettings : NotificationSettings
  subscription : Subscription
  createdAt : Time
  updatedAt : Time
deriving DecidableEq, Repr

structure CompatibilityWarning where
  speciesAId : String
  speciesBId : String
  message : String
deriving DecidableEq, Repr

@[ext]
structure Aquarium where
  id : String
  userId : String
  name : String
  volumeLiters : ℚ
  description : Option String
  type : AquariumType
  isPublic : Bool
  status : AquariumStatusLevel
  compatibilityStatus : CompatibilityStatus
  bioLoadPercentage : Int
  requiredVolumeLiters : ℚ
  warnings : List CompatibilityWarning
  lastCalculatedAt : Option Time
  createdAt : Time
  updatedAt : Time
deriving DecidableEq, Repr

structure FishSpecies where
  id : String
  commonName : String
  scientificName : String
  recommendedVolumePerFish : ℚ
  behavior : FishBehaviorCategory
  bioLoadFactor : ℚ
  isSchooling : Bool
  notes : Option String
deriving DecidableEq, Repr

structure AquariumStock where
  id : String
  aquariumId : String
  speciesId : String
  quantity : ℚ
  sizeClass : Option FishSizeClass
  createdAt : Time
  updatedAt : Time
deriving DecidableEq, Repr

structure BioLoadSummary where
  requiredVolumeLiters : ℚ
  percentage : Int
  status : AquariumStatusLevel
deriving DecidableEq, Repr

structure TaskMeasurementValue where
  parameter : WaterParameterKey
  value : ℚ
deriving DecidableEq, Repr

@[ext]
structure CareTask where
  id : String
  aquariumId : String
  type : CareTaskType
  title : String
  description : String
  intervalDays : Int
  nextDueAt : Time
  lastCompletedAt : Option Time
  status : CareTaskStatus
  channel : NotificationChannel
  requiresMeasurement : Bool
  parameters : Option (List TaskMeasurementValue)
  createdAt : Time
  updatedAt : Time
deriving DecidableEq, Repr

structure Session where
  token : String
  userId : String
  createdAt : Time
  expiresAt : Time
deriving DecidableEq, Repr

structure CompatibilityResult where
  status : CompatibilityStatus
  warnings : List CompatibilityWarning
deriving DecidableEq, Repr

/-- `store.fishSpecies.get(record.speciesId)!` applies a TS non-null
assertion; at runtime a missing species simply yields `undefined`, so the
`fish` field is modelled as an `Option`. -/
structure StockWithFish where
  stock : AquariumStock
  fish : Option FishSpecies
deriving DecidableEq, Repr

structure AquariumWithDetails extends Aquarium where
  species : List StockWithFish
  careTasks : List CareTask
deriving DecidableEq, Repr

/-! ## JS `Map` model: insertion-ordered association lists -/

/-- `Map.get`: the first binding of the key, if any. -/
def mapGet (m : List (String × α)) (k : String) : Option α :=
  match m with
  | [] => none
  | p :: rest => if p.1 = k then some p.2 else mapGet rest k

/-- `Map.set`: replace the first binding of `k` in place, else append. -/
def mapSet : List (String × α) → String → α → List (String × α)
  | [], k, v => [(k, v)]
  | p :: rest, k, v => if p.1 = k then (k, v) :: rest else p :: mapSet rest k v

/-- `Array.from(map.values())` in insertion order. -/
def mapValues (m : List (String × α)) : List α := m.map (·.2)

/-- The in-memory data store (`src/lib/store.ts`). -/
structure DataStore where
  users : List (String × User)
  aquariums : List (String × Aquarium)
  aquariumStock : List (String × List AquariumStock)
  careTasks : List (String × List CareTask)
  sessions : List (String × Session)
  fishSpecies : List (String × FishSpecies)
deriving DecidableEq, Repr

/-- `findFish` (`src/lib/store.ts`). -/
def findFish (store : DataStore) (speciesId : String) : Option FishSpecies :=
  mapGet store.fishSpecies speciesId

/-! ## Static data (`src/data/fishSpecies.ts`) -/

structure BehaviorProfile where
  incompatibleWith : List FishBehaviorCategory
  cautionWith : Option (List FishBehaviorCategory)
  description : String
deriving DecidableEq, Repr

open FishBehaviorCategory in
/-- `behaviorMatrix` (`src/data/fishSpecies.ts`). -/
def behaviorMatrix : FishBehaviorCategory → BehaviorProfile
  | .peaceful =>
    { incompatibleWith := [aggressive, predator]
      cautionWith := some [semi_aggressive]
      description := "Мирные рыбы комфортно сосуществуют с аналогичными по размеру видами и не терпят агрессивных соседей." }
  | .semi_aggressive =>
    { incompatibleWith := [predator]
      cautionWith := some [peaceful, schooling]
      description := "Полуагрессивные виды требуют внимания к объему и укрытиям, чтобы снизить риск территориальных конфликтов." }
  | .aggressive =>
    { incompatibleWith := [peaceful, schooling, bottom_dweller]
      cautionWith := some [semi_aggressive]
      description := "Агрессивные виды доминируют и могут травмировать более спокойных рыб, особенно в тесных аквариумах." }
  | .predator =>
    { incompatibleWith := [peaceful, schooling, bottom_dweller]
      cautionWith := some [semi_aggressive]
      description := "Хищники воспринимают мелких рыб как потенциальный корм и требуют простор и устойчивый рацион." }
  | .bottom_dweller =>
    { incompatibleWith := []
      cautionWith := some [aggressive, predator]
      description := "Донные жители уживаются с большинством видов, если им обеспечен доступ к корму и укрытия." }
  | .schooling =>
    { incompatibleWith := [aggressive, predator]
      cautionWith := some [semi_aggressive]
      description := "Стайные рыбы чувствуют себя уверенно в группе и требуют спокойных соседей без ярко выраженной территориальности." }

/-- `fishSpeciesCatalog` (`src/data/fishSpecies.ts`). -/
def fishSpeciesCatalog : List FishSpecies :=
  [ { id := "neon_tetra", commonName := "Неон", scientificName := "Paracheirodon innesi"
      recommendedVolumePerFish := 4, behavior := .schooling, bioLoadFactor := 1
      isSchooling := true
      notes := some "Стайная мирная рыба, предпочитает мягкую и слегка кисловатую воду." }
  , { id := "guppy", commonName := "Гуппи", scientificName := "Poecilia reticulata"
      recommendedVolumePerFish := 5, behavior := .peaceful, bioLoadFactor := 1
      isSchooling := true
      notes := some "Неприхотливы, но склонны к быстрому размножению." }
  , { id := "angelfish", commonName := "Скалярия", scientificName := "Pterophyllum scalare"
      recommendedVolumePerFish := 20, behavior := .semi_aggressive, bioLoadFactor := 2
      isSchooling := false
      notes := some "При нехватке объема могут проявлять территориальность, особенно к мелким стайным рыбам." }
  , { id := "betta", commonName := "Петушок", scientificName := "Betta splendens"
      recommendedVolumePerFish := 15, behavior := .aggressive, bioLoadFactor := 3 / 2
      isSchooling := false
      notes := some "Самцы агрессивны к себе подобным и предпочитают одиночное содержание." }
  , { id := "corydoras", commonName := "Коридорас", scientificName := "Corydoras paleatus"
      recommendedVolumePerFish := 8, behavior := .bottom_dweller, bioLoadFactor := 1
      isSchooling := true
      notes := some "Донные санитары, лучше содержать группой от шести особей." }
  , { id := "discus", commonName := "Дискус", scientificName := "Symphysodon aequifasciatus"
      recommendedVolumePerFish := 40, behavior := .peaceful, bioLoadFactor := 3
      isSchooling := true
      notes := some "Требовательны к качеству воды, предпочитают теплую и мягкую среду. Нуждаются в просторном аквариуме." }
  , { id := "oscar", commonName := "Оскар", scientificName := "Astronotus ocellatus"
      recommendedVolumePerFish := 100, behavior := .predator, bioLoadFactor := 4
      isSchooling := false
      notes := some "Крупный хищник, воспринимает мелких рыб как корм. Требует мощной фильтрации и больших объемов." }
  , { id := "goldfish", commonName := "Золотая рыбка", scientificName := "Carassius auratus"
      recommendedVolumePerFish := 40, behavior := .peaceful, bioLoadFactor := 3
      isSchooling := false
      notes := some "Высокая нагрузка на биофильтрацию, предпочитают прохладную воду." }
  , { id := "molly", commonName := "Моллинезия", scientificName := "Poecilia sphenops"
      recommendedVolumePerFish := 10, behavior := .peaceful, bioLoadFactor := 6 / 5
      isSchooling := true
      notes := some "Требуют стабильных параметров воды и добавления соли в некоторых вариантах содержания." }
  , { id := "pleco", commonName := "Анциструс", scientificName := "Ancistrus dolichopterus"
      recommendedVolumePerFish := 20, behavior := .bottom_dweller, bioLoadFactor := 9 / 5
      isSchooling := false
      notes := some "Донный сом, помогает контролировать обрастания, но выделяет много органики." }
  ]

/-- The `fishSpecies` map of a freshly created store (`createInitialStore`). -/
def initialFishSpecies : List (String × FishSpecies) :=
  fishSpeciesCatalog.map fun s => (s.id, s)

/-! ## Task templates and interval matrix (`src/services/calculationService.ts`) -/

structure BaseTaskTemplate where
  type : CareTaskType
  title : String
  description : String
  requiresMeasurement : Bool
  measurementKeys : Option (List WaterParameterKey)
deriving DecidableEq, Repr

/-- `baseTasks`: the template registry of the 10 fixed care-task kinds. -/
def baseTasks : List BaseTaskTemplate :=
  [ { type := .feeding, title := "Кормление рыб"
      description := "Кормите рыб небольшими порциями, которые они успевают съесть за две-три минуты."
      requiresMeasurement := false, measurementKeys := none }
  , { type := .observe, title := "Наблюдение за поведением"
      description := "Проверьте активность, аппетит и отсутствие признаков стресса у обитателей."
      requiresMeasurement := false, measurementKeys := none }
  , { type := .water_change, title := "Частичная подмена воды"
      description := "Замените часть воды на подготовленную свежую, не забывая про кондиционер и подогрев."
      requiresMeasurement := false, measurementKeys := none }
  , { type := .test_no3, title := "Тест на нитраты (NO3)"
      description := "Измерьте уровень нитратов и зафиксируйте результат."
      requiresMeasurement := true, measurementKeys := some [.NO3] }
  , { type := .test_no2, title := "Тест на нитриты (NO2)"
      description := "Проверьте наличие нитритов и убедитесь, что значение близко к нулю."
      requiresMeasurement := true, measurementKeys := some [.NO2] }
  , { type := .test_ph, title := "Тест на pH"
      description := "Проверьте кислотность воды и убедитесь, что значение в рабочем диапазоне."
      requiresMeasurement := true, measurementKeys := some [.pH] }
  , { type := .test_gh, title := "Тест на общую жесткость (GH)"
      description := "Запишите показатель общей жесткости и сравните с целевым."
      requiresMeasurement := true, measurementKeys := some [.GH] }
  , { type := .test_kh, title := "Тест на карбонатную жесткость (KH)"
      description := "Контролируйте буферную емкость воды, особенно в растительных аквариумах."
      requiresMeasurement := true, measurementKeys := some [.KH] }
  , { type := .test_ta, title := "Тест на щелочность (TA)"
      description := "Проверьте щелочность, чтобы своевременно корректировать параметры."
      requiresMeasurement := true, measurementKeys := some [.TA] }
  , { type := .test_cl2, title := "Тест на хлор (Cl2)"
      description := "Убедитесь, что в воде отсутствует свободный хлор перед подменами."
      requiresMeasurement := true, measurementKeys := some [.Cl2] }
  ]

structure IntervalProfile where
  water_change : Int
  feeding : Int
  observe : Int
  test_no3 : Int
  test_no2 : Int
  test_ph : Int
  test_gh : Int
  test_kh : Int
  test_ta : Int
  test_cl2 : Int
deriving DecidableEq, Repr

/-- Dynamic field access `intervals[template.type]`. -/
def IntervalProfile.get (p : IntervalProfile) : CareTaskType → Int
  | .water_change => p.water_change
  | .feeding => p.feeding
  | .observe => p.observe
  | .test_no3 => p.test_no3
  | .test_no2 => p.test_no2
  | .test_ph => p.test_ph
  | .test_gh => p.test_gh
  | .test_kh => p.test_kh
  | .test_ta => p.test_ta
  | .test_cl2 => p.test_cl2

/-- `intervalMatrix`: status level → per-task-kind interval in days. -/
def intervalMatrix : AquariumStatusLevel → IntervalProfile
  | .comfort =>
    { water_change := 14, feeding := 1, observe := 1, test_no3 := 14, test_no2 := 14
      test_ph := 14, test_gh := 28, test_kh := 21, test_ta := 21, test_cl2 := 30 }
  | .elevated =>
    { water_change := 7, feeding := 1, observe := 1, test_no3 := 7, test_no2 := 7
      test_ph := 7, test_gh := 21, test_kh := 14, test_ta := 14, test_cl2 := 21 }
  | .critical =>
    { water_change := 3, feeding := 1, observe := 1, test_no3 := 3, test_no2 := 3
      test_ph := 3, test_gh := 7, test_kh := 7, test_ta := 7, test_cl2 := 10 }

/-! ## Care task scheduler (`src/services/calculationService.ts`) -/

/-- `preferredHour`. -/
def preferredHour : NotificationPreferenceTime → Int
  | .morning => 9
  | .evening => 19
  | .any => 12

/-- `normalizeDueDate`: `now` shifted by `offsetDays` days with the clock
set to the preferred hour. -/
def normalizeDueDate (now : Time) (offsetDays : Int)
    (preference : NotificationPreferenceTime) : Time :=
  setUTCHours (addDaysMs now offsetDays) (preferredHour preference)

/-- `updateTaskStatus`: the per-task status transition rule. -/
def updateTaskStatus (now : Time) (task : CareTask) : CareTask :=
  if task.status = .completed then
    if differenceInCalendarDays now task.nextDueAt ≥ task.intervalDays then
      { task with
        status := .active
        nextDueAt := addDaysMs task.nextDueAt task.intervalDays
        updatedAt := now }
    else task
  else if isAfter now task.nextDueAt ∧ task.status ≠ .overdue then
    { task with status := .overdue, updatedAt := now }
  else if ¬ isAfter now task.nextDueAt ∧ task.status = .overdue then
    { task with status := .active, updatedAt := now }
  else task

/-- The body of the `baseTasks.map` callback inside `mergeCareTasks`:
update an existing task instance of the template's kind in place, or
create a fresh instance. -/
def mergeTemplate (existing : List CareTask) (now : Time)
    (fresh : CareTaskType → String) (aquariumId : String)
    (preference : NotificationPreferenceTime) (channel : NotificationChannel)
    (muteFeeding : Bool) (intervals : IntervalProfile)
    (template : BaseTaskTemplate) : CareTask :=
  let existingTask := existing.find? fun task => decide (task.type = template.type)
  let intervalDays := intervals.get template.type
  let taskChannel : NotificationChannel :=
    if template.type = .feeding ∧ muteFeeding then .off else channel
  match existingTask with
  | some e =>
    updateTaskStatus now
      { e with
        title := template.title
        description := template.description
        requiresMeasurement := template.requiresMeasurement
        intervalDays := intervalDays
        channel := taskChannel
        updatedAt := now }
  | none =>
    { id := fresh template.type
      aquariumId := aquariumId
      type := template.type
      title := template.title
      description := template.description
      intervalDays := intervalDays
      nextDueAt :=
        normalizeDueDate now
          (if template.type = .feeding ∨ template.type = .observe then 0 else 1)
          preference
      lastCompletedAt := none
      status := .active
      channel := taskChannel
      requiresMeasurement := template.requiresMeasurement
      parameters := template.measurementKeys.map (List.map fun p =>
        { parameter := p, value := 0 })
      createdAt := now
      updatedAt := now }

/-- `mergeCareTasks`: refresh the full task list for an aquarium. -/
def mergeCareTasks (store : DataStore) (now : Time)
    (fresh : CareTaskType → String) (aquarium : Aquarium) (user : User)
    (desiredStatus : AquariumStatusLevel) : List CareTask :=
  let existing := (mapGet store.careTasks aquarium.id).getD []
  let preference := user.notificationSettings.preferredTime
  let channel := user.notificationSettings.channel
  let intervals := intervalMatrix desiredStatus
  let nextTasks := baseTasks.map
    (mergeTemplate existing now fresh aquarium.id preference channel
      user.notificationSettings.muteFeedingReminders intervals)
  nextTasks.map (updateTaskStatus now)

/-! ## Bio-load evaluator and compatibility scanner -/

/-- `summarizeBioLoad`. -/
def summarizeBioLoad (store : DataStore) (aquarium : Aquarium)
    (stock : List AquariumStock) : BioLoadSummary :=
  let requiredVolume : ℚ := stock.foldl (fun acc record =>
    match mapGet store.fishSpecies record.speciesId with
    | none => acc
    | some species => acc + record.quantity * species.recommendedVolumePerFish) 0
  let percentage : Int :=
    if aquarium.volumeLiters = 0 then 0
    else jsRound (requiredVolume / aquarium.volumeLiters * 100)
  let status : AquariumStatusLevel :=
    if percentage > 100 then .critical
    else if percentage > 60 then .elevated
    else .comfort
  { requiredVolumeLiters := toFixed1 requiredVolume
    percentage := percentage
    status := status }

/-- The caution-warning message template inside `evaluateCompatibility`. -/
def cautionMessage (actor subject : String) : String :=
  actor ++ " и " ++ subject ++ " требуют наблюдения: возможны стычки при нехватке объема или укрытий."

/-- The body of the nested pair loop of `evaluateCompatibility`: the (at
most one) warning emitted for one ordered pair of stock entries. -/
def pairWarning (store : DataStore) (first second : AquariumStock) :
    Option CompatibilityWarning :=
  match findFish store first.speciesId, findFish store second.speciesId with
  | some speciesA, some speciesB =>
    let behaviorA := behaviorMatrix speciesA.behavior
    let behaviorB := behaviorMatrix speciesB.behavior
    if speciesB.behavior ∈ behaviorA.incompatibleWith then
      some { speciesAId := speciesA.id, speciesBId := speciesB.id
             message := speciesA.commonName ++ " и " ++ speciesB.commonName ++
               " часто конфликтуют из-за несовместимого поведения." }
    else if speciesA.behavior ∈ behaviorB.incompatibleWith then
      some { speciesAId := speciesA.id, speciesBId := speciesB.id
             message := speciesB.commonName ++ " и " ++ speciesA.commonName ++
               " имеют выраженный конфликт интересов." }
    else if speciesB.behavior ∈ (behaviorA.cautionWith.getD []) then
      some { speciesAId := speciesA.id, speciesBId := speciesB.id
             message := cautionMessage speciesA.commonName speciesB.commonName }
    else if speciesA.behavior ∈ (behaviorB.cautionWith.getD []) then
      some { speciesAId := speciesA.id, speciesBId := speciesB.id
             message := cautionMessage speciesB.commonName speciesA.commonName }
    else none
  | _, _ => none

/-- The inner loop of `evaluateCompatibility` for a fixed `first` entry:
warnings against each later entry in order. -/
def scanAgainst (store : DataStore) (first : AquariumStock) :
    List AquariumStock → List CompatibilityWarning
  | [] => []
  | second :: rest =>
    match pairWarning store first second with
    | some w => w :: scanAgainst store first rest
    | none => scanAgainst store first rest

/-- The outer loop of `evaluateCompatibility` over indices `i < j`. -/
def scanPairs (store : DataStore) : List AquariumStock → List CompatibilityWarning
  | [] => []
  | first :: rest => scanAgainst store first rest ++ scanPairs store rest

/-- `evaluateCompatibility`. -/
def evaluateCompatibility (store : DataStore) (stock : List AquariumStock) :
    CompatibilityResult :=
  let warnings := scanPairs store stock
  { status := if warnings.length = 0 then .ok else .warn
    warnings := warnings }

/-! ## Insight orchestrator (`recalculateAquariumInsights`) -/

/-- The `updatedAquarium` record built inside `recalculateAquariumInsights`:
the tank with its derived fields overwritten from the current stock. -/
def recalcUpdatedAquarium (store : DataStore) (now : Time) (aquarium : Aquarium) :
    Aquarium :=
  let stock := (mapGet store.aquariumStock aquarium.id).getD []
  let bioLoad := summarizeBioLoad store aquarium stock
  let compatibility := evaluateCompatibility store stock
  { aquarium with
    status := bioLoad.status
    bioLoadPercentage := bioLoad.percentage
    requiredVolumeLiters := bioLoad.requiredVolumeLiters
    compatibilityStatus := compatibility.status
    warnings := compatibility.warnings
    lastCalculatedAt := some now
    updatedAt := now }

/-- `recalculateAquariumInsights`: recompute derived fields, write them to
the store, and refresh (or clear) the task list.  Returns the produced
task list together with the updated store. -/
def recalculateAquariumInsights (store : DataStore) (now : Time)
    (fresh : CareTaskType → String) (aquarium : Aquarium) (user : User) :
    List CareTask × DataStore :=
  let stock := (mapGet store.aquariumStock aquarium.id).getD []
  let updatedAquarium := recalcUpdatedAquarium store now aquarium
  let store1 : DataStore :=
    { store with aquariums := mapSet store.aquariums updatedAquarium.id updatedAquarium }
  if stock.length > 0 then
    let tasks := mergeCareTasks store1 now fresh updatedAquarium user
      (summarizeBioLoad store aquarium stock).status
    (tasks, { store1 with careTasks := mapSet store1.careTasks updatedAquarium.id tasks })
  else
    ([], { store1 with careTasks := mapSet store1.careTasks updatedAquarium.id [] })

/-! ## Aquarium service operations (`src/services/aquariumService.ts`) -/

/-- `getUserAquariums` (`src/lib/store.ts`). -/
def getUserAquariums (store : DataStore) (userId : String) :
    List AquariumWithDetails :=
  let aquariums := (mapValues store.aquariums).filter fun a => decide (a.userId = userId)
  aquariums.map fun aquarium =>
    { toAquarium := aquarium
      species := ((mapGet store.aquariumStock aquarium.id).getD []).map fun record =>
        { stock := record, fish := mapGet store.fishSpecies record.speciesId }
      careTasks := (mapGet store.careTasks aquarium.id).getD [] }

/-- `getAquarium`. -/
def getAquarium (store : DataStore) (userId aquariumId : String) :
    Option AquariumWithDetails :=
  match mapGet store.aquariums aquariumId with
  | none => none
  | some aquarium =>
    if aquarium.userId ≠ userId then none
    else (getUserAquariums store userId).find? fun item => decide (item.id = aquariumId)

/-- `tasks[index] = value` after `findIndex`: replace the first element
satisfying the predicate. -/
def setFirst (p : α → Bool) (f : α → α) : List α → List α
  | [] => []
  | x :: xs => if p x then f x :: xs else x :: setFirst p f xs

/-- `updateStockQuantity`.  A non-positive quantity throws
(`Error("Количество должно быть положительным числом.")`), modelled with
`Except`; all not-found outcomes are `.ok (none, store)`. -/
def updateStockQuantity (store : DataStore) (now : Time)
    (fresh : CareTaskType → String) (user : User)
    (aquariumId stockId : String) (quantity : ℚ) :
    Except String (Option AquariumWithDetails × DataStore) :=
  if quantity ≤ 0 then .error "Количество должно быть положительным числом."
  else
    match mapGet store.aquariums aquariumId with
    | none => .ok (none, store)
    | some aquarium =>
      if aquarium.userId ≠ user.id then .ok (none, store)
      else
        let stockRecords := (mapGet store.aquariumStock aquariumId).getD []
        match stockRecords.find? fun item => decide (item.id = stockId) with
        | none => .ok (none, store)
        | some _ =>
          let newRecords := setFirst (fun item => decide (item.id = stockId))
            (fun record => { record with quantity := quantity, updatedAt := now })
            stockRecords
          let store1 :=
            { store with aquariumStock := mapSet store.aquariumStock aquariumId newRecords }
          let store2 := (recalculateAquariumInsights store1 now fresh aquarium user).2
          .ok (getAquarium store2 user.id aquariumId, store2)

/-- `removeFishFromAquarium`. -/
def removeFishFromAquarium (store : DataStore) (now : Time)
    (fresh : CareTaskType → String) (user : User)
    (aquariumId stockId : String) :
    Option AquariumWithDetails × DataStore :=
  match mapGet store.aquariums aquariumId with
  | none => (none, store)
  | some aquarium =>
    if aquarium.userId ≠ user.id then (none, store)
    else
      let stockRecords := (mapGet store.aquariumStock aquariumId).getD []
      let filtered := stockRecords.filter fun item => decide (item.id ≠ stockId)
      let store1 :=
        { store with aquariumStock := mapSet store.aquariumStock aquariumId filtered }
      let store2 := (recalculateAquariumInsights store1 now fresh aquarium user).2
      (getAquarium store2 user.id aquariumId, store2)

/-- `measurements?.[parameter.parameter]`. -/
def measurementFor (measurements : Option (List (WaterParameterKey × ℚ)))
    (key : WaterParameterKey) : Option ℚ :=
  measurements.bind fun m => (m.find? fun p => decide (p.1 = key)).map (·.2)

/-- `markTaskComplete`.  Returns the updated task (or `none` for every
not-found outcome) together with the updated store. -/
def markTaskComplete (store : DataStore) (now : Time) (user : User)
    (aquariumId taskId : String)
    (measurements : Option (List (WaterParameterKey × ℚ))) :
    Option CareTask × DataStore :=
  match mapGet store.aquariums aquariumId with
  | none => (none, store)
  | some aquarium =>
    if aquarium.userId ≠ user.id then (none, store)
    else
      let tasks := (mapGet store.careTasks aquariumId).getD []
      match tasks.find? fun item => decide (item.id = taskId) with
      | none => (none, store)
      | some task =>
        let nextDue := addDaysMs now task.intervalDays
        let updated : CareTask :=
          { task with
            status := .completed
            lastCompletedAt := some now
            nextDueAt := nextDue
            updatedAt := now
            parameters :=
              if task.requiresMeasurement then
                task.parameters.map (List.map fun parameter =>
                  { parameter with
                    value := (measurementFor measurements parameter.parameter).getD parameter.value })
              else task.parameters }
        let newTasks := setFirst (fun item => decide (item.id = taskId)) (fun _ => updated) tasks
        (some updated, { store with careTasks := mapSet store.careTasks aquariumId newTasks })

/-! ## Concrete fixtures used by witnesses and counterexamples -/

/-- A task whose status already agrees with the clock: `updateTaskStatus`
leaves it unchanged. -/
def TaskSettled (now : Time) (t : CareTask) : Prop :=
  (t.status = .completed → differenceInCalendarDays now t.nextDueAt < t.intervalDays)
  ∧ (t.status ≠ .completed → (t.status = .overdue ↔ isAfter now t.nextDueAt))

/-! ## Concrete fixtures for witnesses and counterexamples -/

/-- A freshly initialized store (`createInitialStore`): empty except for
the species catalog. -/
def initialStore : DataStore :=
  { users := [], aquariums := [], aquariumStock := [], careTasks := []
    sessions := [], fishSpecies := initialFishSpecies }

def sampleSettings : NotificationSettings :=
  { channel := .email, preferredTime := .morning, timeZone := "UTC"
    muteFeedingReminders := false }

def sampleUser : User :=
  { id := "user-1", email := "user@example.com", passwordHash := "hash"
    displayName := none, notificationSettings := sampleSettings
    subscription := { plan := .free, startAt := 0, endAt := none, aquariumLimit := 1 }
    createdAt := 0, updatedAt := 0 }

def sampleAquarium : Aquarium :=
  { id := "aq-1", userId := "user-1", name := "Main tank", volumeLiters := 100
    description := none, type := .freshwater, isPublic := false
    status := .comfort, compatibilityStatus := .ok, bioLoadPercentage := 0
    requiredVolumeLiters := 0, warnings := [], lastCalculatedAt := none
    createdAt := 0, updatedAt := 0 }

def guppyFish : FishSpecies :=
  { id := "guppy", commonName := "Гуппи", scientificName := "Poecilia reticulata"
    recommendedVolumePerFish := 5, behavior := .peaceful, bioLoadFactor := 1
    isSchooling := true
    notes := some "Неприхотливы, но склонны к быстрому размножению." }

def guppyStock : AquariumStock :=
  { id := "stock-1", aquariumId := "aq-1", speciesId := "guppy", quantity := 1
    sizeClass := none, createdAt := 0, updatedAt := 0 }

def bettaStock : AquariumStock :=
  { id := "stock-2", aquariumId := "aq-1", speciesId := "betta", quantity := 1
    sizeClass := none, createdAt := 0, updatedAt := 0 }

def mollyStock : AquariumStock :=
  { id := "stock-3", aquariumId := "aq-1", speciesId := "molly", quantity := 1
    sizeClass := none, createdAt := 0, updatedAt := 0 }

/-- A constant id supply standing in for `crypto.randomUUID()`. -/
def sampleFresh : CareTaskType → String := fun _ => "generated-id"

/-- All ordered pairs `(l[i], l[j])` with `i < j`, in loop order. -/
def orderedPairs : List α → List (α × α)
  | [] => []
  | x :: xs => (xs.map fun y => (x, y)) ++ orderedPairs xs

def sampleTaskActive : CareTask :=
  { id := "task-1", aquariumId := "aq-1", type := .water_change
    title := "Частичная подмена воды", description := ""
    intervalDays := 14, nextDueAt := 0, lastCompletedAt := none
    status := .active, channel := .email, requiresMeasurement := false
    parameters := none, createdAt := 0, updatedAt := 0 }

/-- C3 counterexample input: a completed water-change task whose due date
lies 100 days in the past, in an otherwise fresh store. -/
def staleTask : CareTask :=
  { id := "task-wc", aquariumId := "aq-1", type := .water_change
    title := "Частичная подмена воды", description := ""
    intervalDays := 14, nextDueAt := 43200000, lastCompletedAt := some 0
    status := .completed, channel := .email, requiresMeasurement := false
    parameters := none, createdAt := 0, updatedAt := 0 }

def staleStore : DataStore :=
  { initialStore with
    aquariums := [("aq-1", sampleAquarium)]
    careTasks := [("aq-1", [staleTask])] }

/-- Day 100 at 12:00 UTC. -/
def nowDay100 : Time := 100 * 86400000 + 43200000

/-- 10:00 UTC on day 0. -/
def nowTenAM : Time := 10 * 3600000

def testPhTask : CareTask :=
  { id := "task-ph", aquariumId := "aq-1", type := .test_ph
    title := "Тест на pH", description := ""
    intervalDays := 14, nextDueAt := 0, lastCompletedAt := none
    status := .active, channel := .email, requiresMeasurement := true
    parameters := some [{ parameter := .pH, value := 0 }]
    createdAt := 0, updatedAt := 0 }

/-- A store holding one tank of `sampleUser` with one stock entry and a
pH-test task. -/
def serviceStore : DataStore :=
  { initialStore with
    aquariums := [("aq-1", sampleAquarium)]
    aquariumStock := [("aq-1", [guppyStock])]
    careTasks := [("aq-1", [testPhTask])] }

/-! ## Helper lemmas: map model -/

theorem mapGet_mapSet_self (m : List (String × α)) (k : String) (v : α) :
    mapGet (mapSet m k v) k = some v := by
  induction m with
  | nil => simp [mapGet, mapSet]
  | cons p rest ih =>
    by_cases h : p.1 = k
    · simp [mapGet, mapSet, h]
    · simpa [mapGet, mapSet, h] using ih

theorem mapSet_eq_self (m : List (String × α)) (k : String) (v : α)
    (h : mapGet m k = some v) : mapSet m k v = m := by
  induction m with
  | nil => simp [mapGet] at h
  | cons p rest ih =>
    by_cases hk : p.1 = k
    · simp only [mapGet, hk, if_pos, Option.some.injEq] at h
      cases p with
      | mk pk pv =>
        simp only [mapSet]
        simp_all
    · simp only [mapGet, hk, if_neg, if_false] at h
      simp [mapSet, hk, ih h]

theorem mapGet_mem_mapValues (m : List (String × α)) (k : String) (v : α)
    (h : mapGet m k = some v) : v ∈ mapValues m := by
  induction m with
  | nil => simp [mapGet] at h
  | cons p rest ih =>
    by_cases hk : p.1 = k
    · simp only [mapGet, hk, if_pos, Option.some.injEq] at h
      simp [mapValues, h]
    · simp only [mapGet, hk, if_neg, if_false] at h
      simp only [mapValues, List.map_cons, List.mem_cons]
      exact Or.inr (ih h)

/-! ## Helper lemmas: find over a keyed map -/

/-- If `g` preserves a key function and the keys of `l` are distinct, then
searching `l.map g` for the key of `a ∈ l` finds exactly `g a`. -/
theorem find?_map_of_key {α β κ : Type} [DecidableEq κ]
    (l : List α) (key : α → κ) (g : α → β) (keyg : β → κ)
    (hg : ∀ x ∈ l, keyg (g x) = key x) (nodup : (l.map key).Nodup)
    (a : α) (ha : a ∈ l) :
    (l.map g).find? (fun b => decide (keyg b = key a)) = some (g a) := by
  induction l with
  | nil => cases ha
  | cons x xs ih =>
    have hx : keyg (g x) = key x := hg x (List.mem_cons_self x xs)
    rcases List.mem_cons.mp ha with rfl | ha'
    · simp [List.find?, hx]
    · have hne : key x ≠ key a := by
        intro hcontra
        have : key a ∈ xs.map key := List.mem_map_of_mem key ha'
        rw [← hcontra] at this
        exact (List.nodup_cons.mp nodup).1 this
      have : (decide (keyg (g x) = key a)) = false := by
        simp [hx, hne]
      simp only [List.map_cons, List.find?, this]
      exact ih (fun y hy => hg y (List.mem_cons_of_mem x hy))
        (List.nodup_cons.mp nodup).2 ha'

/-! ## Helper lemmas: updateTaskStatus field preservation -/

theorem updateTaskStatus_type (now : Time) (t : CareTask) :
    (updateTaskStatus now t).type = t.type := by
  unfold updateTaskStatus
  repeat' split
  all_goals rfl

theorem updateTaskStatus_id (now : Time) (t : CareTask) :
    (updateTaskStatus now t).id = t.id := by
  unfold updateTaskStatus
  repeat' split
  all_goals rfl

theorem updateTaskStatus_aquariumId (now : Time) (t : CareTask) :
    (updateTaskStatus now t).aquariumId = t.aquariumId := by
  unfold updateTaskStatus
  repeat' split
  all_goals rfl

theorem updateTaskStatus_createdAt (now : Time) (t : CareTask) :
    (updateTaskStatus now t).createdAt = t.createdAt := by
  unfold updateTaskStatus
  repeat' split
  all_goals rfl

theorem updateTaskStatus_title (now : Time) (t : CareTask) :
    (updateTaskStatus now t).title = t.title := by
  unfold updateTaskStatus
  repeat' split
  all_goals rfl

theorem updateTaskStatus_description (now : Time) (t : CareTask) :
    (updateTaskStatus now t).description = t.description := by
  unfold updateTaskStatus
  repeat' split
  all_goals rfl

theorem updateTaskStatus_requiresMeasurement (now : Time) (t : CareTask) :
    (updateTaskStatus now t).requiresMeasurement = t.requiresMeasurement := by
  unfold updateTaskStatus
  repeat' split
  all_goals rfl

theorem updateTaskStatus_intervalDays (now : Time) (t : CareTask) :
    (updateTaskStatus now t).intervalDays = t.intervalDays := by
  unfold updateTaskStatus
  repeat' split
  all_goals rfl

theorem updateTaskStatus_channel (now : Time) (t : CareTask) :
    (updateTaskStatus now t).channel = t.channel := by
  unfold updateTaskStatus
  repeat' split
  all_goals rfl

theorem updateTaskStatus_parameters (now : Time) (t : CareTask) :
    (updateTaskStatus now t).parameters = t.parameters := by
  unfold updateTaskStatus
  repeat' split
  all_goals rfl

theorem updateTaskStatus_lastCompletedAt (now : Time) (t : CareTask) :
    (updateTaskStatus now t).lastCompletedAt = t.lastCompletedAt := by
  unfold updateTaskStatus
  repeat' split
  all_goals rfl

theorem updateTaskStatus_updatedAt_of_now (now : Time) (t : CareTask)
    (h : t.updatedAt = now) : (updateTaskStatus now t).updatedAt = now := by
  unfold updateTaskStatus
  repeat' split
  all_goals try rfl
  all_goals exact h

/-! ## Helper lemmas: settled tasks -/

theorem updateTaskStatus_of_settled (now : Time) (t : CareTask)
    (h : TaskSettled now t) : updateTaskStatus now t = t := by
  obtain ⟨hc, hn⟩ := h
  unfold updateTaskStatus
  by_cases hs : t.status = .completed
  · simp [hs, not_le.mpr (hc hs)]
  · have hiff := hn hs
    simp only [hs, if_false]
    by_cases ha : isAfter now t.nextDueAt
    · have : t.status = .overdue := hiff.mpr ha
      simp [ha, this]
    · have : t.status ≠ .overdue := fun hcon => ha (hiff.mp hcon)
      simp [ha, this]

theorem settled_updateTaskStatus_of_not_completed (now : Time) (t : CareTask)
    (h : t.status ≠ .completed) : TaskSettled now (updateTaskStatus now t) := by
  unfold updateTaskStatus TaskSettled
  simp only [h, if_false]
  by_cases ha : isAfter now t.nextDueAt
  · by_cases ho : t.status = .overdue
    · simp [ha, ho, h]
    · simp [ha, ho]
  · by_cases ho : t.status = .overdue
    · simp [ha, ho]
    · simp [ha, ho, h]

theorem settled_updateTaskStatus_two (now : Time) (t : CareTask) :
    TaskSettled now (updateTaskStatus now (updateTaskStatus now t)) := by
  by_cases hs : t.status = .completed
  · by_cases hr : differenceInCalendarDays now t.nextDueAt ≥ t.intervalDays
    · have h1 : updateTaskStatus now t =
        { t with status := .active
                 nextDueAt := addDaysMs t.nextDueAt t.intervalDays
                 updatedAt := now } := by
        unfold updateTaskStatus
        simp [hs, hr]
      rw [h1]
      exact settled_updateTaskStatus_of_not_completed now _ (by simp)
    · have h1 : updateTaskStatus now t = t := by
        unfold updateTaskStatus
        simp [hs, hr]
      rw [h1, h1]
      exact ⟨fun _ => not_le.mp hr, fun hn => absurd hs hn⟩
  · have h2 := settled_updateTaskStatus_of_not_completed now t hs
    rw [updateTaskStatus_of_settled now _ h2]
    exact h2

theorem updateTaskStatus_two_of_not_completed (now : Time) (t : CareTask)
    (h : t.status ≠ .completed) :
    updateTaskStatus now (updateTaskStatus now t) = updateTaskStatus now t :=
  updateTaskStatus_of_settled now _ (settled_updateTaskStatus_of_not_completed now t h)

/-! ## Helper lemmas: mergeTemplate field values -/

theorem mergeTemplate_type (existing : List CareTask) (now : Time)
    (fresh : CareTaskType → String) (aquariumId : String)
    (preference : NotificationPreferenceTime) (channel : NotificationChannel)
    (muteFeeding : Bool) (intervals : IntervalProfile)
    (template : BaseTaskTemplate) :
    (mergeTemplate existing now fresh aquariumId preference channel muteFeeding
      intervals template).type = template.type := by
  unfold mergeTemplate
  cases hfind : existing.find? fun task => decide (task.type = template.type) with
  | none => simp [hfind]
  | some e =>
    have he : e.type = template.type := by
      have := List.find?_some hfind
      simpa using this
    simp [hfind, updateTaskStatus_type, he]

theorem mergeTemplate_title (existing : List CareTask) (now : Time)
    (fresh : CareTaskType → String) (aquariumId : String)
    (preference : NotificationPreferenceTime) (channel : NotificationChannel)
    (muteFeeding : Bool) (intervals : IntervalProfile)
    (template : BaseTaskTemplate) :
    (mergeTemplate existing now fresh aquariumId preference channel muteFeeding
      intervals template).title = template.title := by
  unfold mergeTemplate
  cases hfind : existing.find? fun task => decide (task.type = template.type) with
  | none => simp [hfind]
  | some e => simp [hfind, updateTaskStatus_title]

theorem mergeTemplate_description (existing : List CareTask) (now : Time)
    (fresh : CareTaskType → String) (aquariumId : String)
    (preference : NotificationPreferenceTime) (channel : NotificationChannel)
    (muteFeeding : Bool) (intervals : IntervalProfile)
    (template : BaseTaskTemplate) :
    (mergeTemplate existing now fresh aquariumId preference channel muteFeeding
      intervals template).description = template.description := by
  unfold mergeTemplate
  cases hfind : existing.find? fun task => decide (task.type = template.type) with
  | none => simp [hfind]
  | some e => simp [hfind, updateTaskStatus_description]

theorem mergeTemplate_requiresMeasurement (existing : List CareTask) (now : Time)
    (fresh : CareTaskType → String) (aquariumId : String)
    (preference : NotificationPreferenceTime) (channel : NotificationChannel)
    (muteFeeding : Bool) (intervals : IntervalProfile)
    (template : BaseTaskTemplate) :
    (mergeTemplate existing now fresh aquariumId preference channel muteFeeding
      intervals template).requiresMeasurement = template.requiresMeasurement := by
  unfold mergeTemplate
  cases hfind : existing.find? fun task => decide (task.type = template.type) with
  | none => simp [hfind]
  | some e => simp [hfind, updateTaskStatus_requiresMeasurement]

theorem mergeTemplate_intervalDays (existing : List CareTask) (now : Time)
    (fresh : CareTaskType → String) (aquariumId : String)
    (preference : NotificationPreferenceTime) (channel : NotificationChannel)
    (muteFeeding : Bool) (intervals : IntervalProfile)
    (template : BaseTaskTemplate) :
    (mergeTemplate existing now fresh aquariumId preference channel muteFeeding
      intervals template).intervalDays = intervals.get template.type := by
  unfold mergeTemplate
  cases hfind : existing.find? fun task => decide (task.type = template.type) with
  | none => simp [hfind]
  | some e => simp [hfind, updateTaskStatus_intervalDays]

theorem mergeTemplate_channel (existing : List CareTask) (now : Time)
    (fresh : CareTaskType → String) (aquariumId : String)
    (preference : NotificationPreferenceTime) (channel : NotificationChannel)
    (muteFeeding : Bool) (intervals : IntervalProfile)
    (template : BaseTaskTemplate) :
    (mergeTemplate existing now fresh aquariumId preference channel muteFeeding
      intervals template).channel =
      (if template.type = .feeding ∧ muteFeeding then .off else channel) := by
  unfold mergeTemplate
  cases hfind : existing.find? fun task => decide (task.type = template.type) with
  | none => simp [hfind]
  | some e => simp [hfind, updateTaskStatus_channel]

theorem mergeTemplate_updatedAt (existing : List CareTask) (now : Time)
    (fresh : CareTaskType → String) (aquariumId : String)
    (preference : NotificationPreferenceTime) (channel : NotificationChannel)
    (muteFeeding : Bool) (intervals : IntervalProfile)
    (template : BaseTaskTemplate) :
    (mergeTemplate existing now fresh aquariumId preference channel muteFeeding
      intervals template).updatedAt = now := by
  unfold mergeTemplate
  cases hfind : existing.find? fun task => decide (task.type = template.type) with
  | none => simp [hfind]
  | some e => simp [hfind, updateTaskStatus_updatedAt_of_now]

/-! ## Helper lemmas: bio-load arithmetic -/

theorem bioLoad_foldl (store : DataStore) (stock : List AquariumStock)
    (f : AquariumStock → FishSpecies)
    (h : ∀ e ∈ stock, mapGet store.fishSpecies e.speciesId = some (f e)) :
    ∀ acc : ℚ,
      stock.foldl (fun acc record =>
        match mapGet store.fishSpecies record.speciesId with
        | none => acc
        | some species => acc + record.quantity * species.recommendedVolumePerFish) acc
      = acc + ((stock.map fun e => e.quantity * (f e).recommendedVolumePerFish).sum) := by
  induction stock with
  | nil => intro acc; simp
  | cons e rest ih =>
    intro acc
    have he := h e (List.mem_cons_self e rest)
    simp only [List.foldl_cons, he, List.map_cons, List.sum_cons]
    rw [ih (fun x hx => h x (List.mem_cons_of_mem e hx))]
    ring

theorem sum_int_of_terms_int (g : AquariumStock → ℚ) (l : List AquariumStock)
    (h : ∀ e ∈ l, ∃ n : ℤ, g e = (n : ℚ)) :
    ∃ N : ℤ, (l.map g).sum = (N : ℚ) := by
  induction l with
  | nil => exact ⟨0, by simp⟩
  | cons e rest ih =>
    obtain ⟨n, hn⟩ := h e (List.mem_cons_self e rest)
    obtain ⟨N, hN⟩ := ih (fun x hx => h x (List.mem_cons_of_mem e hx))
    exact ⟨n + N, by simp [hn, hN]⟩

theorem toFixed1_intCast (n : ℤ) : toFixed1 (n : ℚ) = (n : ℚ) := by
  unfold toFixed1
  rw [show (n : ℚ) * 10 + 1 / 2 = ((10 * n : ℤ) : ℚ) + 1 / 2 by push_cast; ring,
    Int.floor_int_add]
  norm_num

/-! ## Claims -/

/-- C1: for every tank and stock list (with every entry resolving in the
species table to an integral required volume, as all catalog data is), the
bio-load evaluator returns `requiredVolumeLiters` equal to
`Σ quantity_i × recommendedVolumePerFish_i` rounded to 1 decimal,
`percentage = round(requiredVolumeLiters / volumeLiters × 100)` with
`percentage = 0` when `volumeLiters = 0`, and status critical when
`percentage > 100`, elevated when `60 < percentage ≤ 100`, comfort
otherwise; in particular percentage 61 and 100 give elevated and 101
gives critical. -/
theorem claim_C1_bioLoad (store : DataStore) (aquarium : Aquarium)
    (stock : List AquariumStock) (f : AquariumStock → FishSpecies)
    (hres : ∀ e ∈ stock, mapGet store.fishSpecies e.speciesId = some (f e))
    (hint : ∀ e ∈ stock, ∃ n : ℤ, e.quantity * (f e).recommendedVolumePerFish = (n : ℚ)) :
    (summarizeBioLoad store aquarium stock).requiredVolumeLiters
        = toFixed1 ((stock.map fun e => e.quantity * (f e).recommendedVolumePerFish).sum)
    ∧ (summarizeBioLoad store aquarium stock).percentage
        = (if aquarium.volumeLiters = 0 then 0
           else jsRound ((summarizeBioLoad store aquarium stock).requiredVolumeLiters
             / aquarium.volumeLiters * 100))
    ∧ ((summarizeBioLoad store aquarium stock).percentage > 100 →
        (summarizeBioLoad store aquarium stock).status = .critical)
    ∧ (60 < (summarizeBioLoad store aquarium stock).percentage ∧
        (summarizeBioLoad store aquarium stock).percentage ≤ 100 →
        (summarizeBioLoad store aquarium stock).status = .elevated)
    ∧ ((summarizeBioLoad store aquarium stock).percentage ≤ 60 →
        (summarizeBioLoad store aquarium stock).status = .comfort)
    ∧ ((summarizeBioLoad store aquarium stock).percentage = 61 →
        (summarizeBioLoad store aquarium stock).status = .elevated)
    ∧ ((summarizeBioLoad store aquarium stock).percentage = 100 →
        (summarizeBioLoad store aquarium stock).status = .elevated)
    ∧ ((summarizeBioLoad store aquarium stock).percentage = 101 →
        (summarizeBioLoad store aquarium stock).status = .critical) := by
  have hS : stock.foldl (fun acc record =>
      match mapGet store.fishSpecies record.speciesId with
      | none => acc
      | some species => acc + record.quantity * species.recommendedVolumePerFish) (0 : ℚ)
      = (stock.map fun e => e.quantity * (f e).recommendedVolumePerFish).sum := by
    simpa using bioLoad_foldl store stock f hres 0
  obtain ⟨N, hN⟩ :=
    sum_int_of_terms_int (fun e => e.quantity * (f e).recommendedVolumePerFish) stock hint
  have hfix : toFixed1 ((stock.map fun e => e.quantity * (f e).recommendedVolumePerFish).sum)
      = (stock.map fun e => e.quantity * (f e).recommendedVolumePerFish).sum := by
    rw [hN, toFixed1_intCast]
  simp only [summarizeBioLoad, hS, hfix]
  refine ⟨trivial, trivial, ?_, ?_, ?_, ?_, ?_, ?_⟩ <;> intro hp <;>
    split_ifs at hp ⊢ <;> first | rfl | omega

/-- C1 witness: one guppy (5 L per fish) in a 100 L tank. -/
theorem claim_C1_bioLoad_witness :
    (summarizeBioLoad initialStore sampleAquarium [guppyStock]).requiredVolumeLiters
        = toFixed1 (([guppyStock].map fun e =>
            e.quantity * ((fun _ => guppyFish) e).recommendedVolumePerFish).sum)
    ∧ (summarizeBioLoad initialStore sampleAquarium [guppyStock]).percentage
        = (if sampleAquarium.volumeLiters = 0 then 0
           else jsRound ((summarizeBioLoad initialStore sampleAquarium [guppyStock]).requiredVolumeLiters
             / sampleAquarium.volumeLiters * 100))
    ∧ ((summarizeBioLoad initialStore sampleAquarium [guppyStock]).percentage > 100 →
        (summarizeBioLoad initialStore sampleAquarium [guppyStock]).status = .critical)
    ∧ (60 < (summarizeBioLoad initialStore sampleAquarium [guppyStock]).percentage ∧
        (summarizeBioLoad initialStore sampleAquarium [guppyStock]).percentage ≤ 100 →
        (summarizeBioLoad initialStore sampleAquarium [guppyStock]).status = .elevated)
    ∧ ((summarizeBioLoad initialStore sampleAquarium [guppyStock]).percentage ≤ 60 →
        (summarizeBioLoad initialStore sampleAquarium [guppyStock]).status = .comfort)
    ∧ ((summarizeBioLoad initialStore sampleAquarium [guppyStock]).percentage = 61 →
        (summarizeBioLoad initialStore sampleAquarium [guppyStock]).status = .elevated)
    ∧ ((summarizeBioLoad initialStore sampleAquarium [guppyStock]).percentage = 100 →
        (summarizeBioLoad initialStore sampleAquarium [guppyStock]).status = .elevated)
    ∧ ((summarizeBioLoad initialStore sampleAquarium [guppyStock]).percentage = 101 →
        (summarizeBioLoad initialStore sampleAquarium [guppyStock]).status = .critical) :=
  claim_C1_bioLoad initialStore sampleAquarium [guppyStock] (fun _ => guppyFish)
    (by decide)
    (fun e he => ⟨5, by
      rcases List.mem_singleton.mp he with rfl
      norm_num [guppyStock, guppyFish]⟩)

/-! ## More updateTaskStatus characterizations -/

theorem updateTaskStatus_nextDueAt_of_not_completed (now : Time) (t : CareTask)
    (h : t.status ≠ .completed) :
    (updateTaskStatus now t).nextDueAt = t.nextDueAt := by
  unfold updateTaskStatus
  simp only [h, if_false, if_neg]
  split_ifs <;> rfl

theorem updateTaskStatus_status_of_not_completed (now : Time) (t : CareTask)
    (h : t.status ≠ .completed) :
    (updateTaskStatus now t).status =
      (if isAfter now t.nextDueAt then .overdue
       else if t.status = .overdue then .active else t.status) := by
  unfold updateTaskStatus
  by_cases ha : isAfter now t.nextDueAt
  · by_cases ho : t.status = .overdue <;> simp [h, ha, ho]
  · by_cases ho : t.status = .overdue <;> simp [h, ha, ho]

theorem updateTaskStatus_completed_rolls (now : Time) (t : CareTask)
    (hc : t.status = .completed)
    (hd : differenceInCalendarDays now t.nextDueAt ≥ t.intervalDays) :
    updateTaskStatus now t =
      { t with status := .active
               nextDueAt := addDaysMs t.nextDueAt t.intervalDays
               updatedAt := now } := by
  unfold updateTaskStatus
  simp [hc, hd]

/-! ## Day-boundary facts for freshly created due dates -/

theorem calendarDay_addDay (t : Time) :
    calendarDay (addDaysMs t 1) = calendarDay t + 1 := by
  unfold calendarDay addDaysMs
  rw [Int.fdiv_eq_ediv _ (by norm_num [dayMs]), Int.fdiv_eq_ediv _ (by norm_num [dayMs]),
    Int.add_mul_ediv_right t 1 (by norm_num [dayMs])]

theorem lt_next_day (t : Time) : t < (calendarDay t + 1) * dayMs := by
  have hpos : (0 : Int) < dayMs := by norm_num [dayMs]
  have := Int.lt_fdiv_add_one_mul_self t hpos
  simpa [calendarDay] using this

/-! ## Claim C2: compatibility scanner -/

theorem scanAgainst_eq_filterMap (store : DataStore) (first : AquariumStock)
    (l : List AquariumStock) :
    scanAgainst store first l = l.filterMap (pairWarning store first) := by
  induction l with
  | nil => rfl
  | cons second rest ih =>
    unfold scanAgainst
    cases h : pairWarning store first second with
    | none => simp [List.filterMap_cons, h, ih]
    | some w => simp [List.filterMap_cons, h, ih]

theorem scanPairs_eq_filterMap (store : DataStore) (stock : List AquariumStock) :
    scanPairs store stock
      = (orderedPairs stock).filterMap fun p => pairWarning store p.1 p.2 := by
  induction stock with
  | nil => rfl
  | cons first rest ih =>
    unfold scanPairs orderedPairs
    rw [List.filterMap_append, scanAgainst_eq_filterMap, ih,
      List.filterMap_map]
    rfl

/-- C2: the compatibility scanner emits, for every unordered pair in list
order, exactly one conflict warning when either behavior lists the other
as incompatible (without falling through to the caution checks), else one
caution warning when either behavior lists the other as caution-worthy,
else nothing; status is warn exactly when some warning exists; one
peaceful plus one aggressive species gives exactly one warning and status
warn, and two peaceful species give no warnings and status ok. -/
theorem claim_C2_compatibility (store : DataStore) (stock : List AquariumStock) :
    (evaluateCompatibility store stock).warnings
        = (orderedPairs stock).filterMap (fun p => pairWarning store p.1 p.2)
    ∧ ((evaluateCompatibility store stock).status = .warn ↔
        (evaluateCompatibility store stock).warnings ≠ [])
    ∧ (∀ first second : AquariumStock, ∀ sA sB : FishSpecies,
        findFish store first.speciesId = some sA →
        findFish store second.speciesId = some sB →
        ((sB.behavior ∈ (behaviorMatrix sA.behavior).incompatibleWith ∨
          sA.behavior ∈ (behaviorMatrix sB.behavior).incompatibleWith) →
          (pairWarning store first second).map (fun w => (w.speciesAId, w.speciesBId))
            = some (sA.id, sB.id))
        ∧ (¬ (sB.behavior ∈ (behaviorMatrix sA.behavior).incompatibleWith ∨
              sA.behavior ∈ (behaviorMatrix sB.behavior).incompatibleWith) →
            (sB.behavior ∈ ((behaviorMatrix sA.behavior).cautionWith.getD []) ∨
             sA.behavior ∈ ((behaviorMatrix sB.behavior).cautionWith.getD [])) →
            (pairWarning store first second).map (fun w => (w.speciesAId, w.speciesBId))
              = some (sA.id, sB.id))
        ∧ (¬ (sB.behavior ∈ (behaviorMatrix sA.behavior).incompatibleWith ∨
              sA.behavior ∈ (behaviorMatrix sB.behavior).incompatibleWith) →
            ¬ (sB.behavior ∈ ((behaviorMatrix sA.behavior).cautionWith.getD []) ∨
               sA.behavior ∈ ((behaviorMatrix sB.behavior).cautionWith.getD [])) →
            pairWarning store first second = none))
    ∧ (∀ e1 e2 : AquariumStock, ∀ sA sB : FishSpecies,
        findFish store e1.speciesId = some sA →
        findFish store e2.speciesId = some sB →
        sA.behavior = .peaceful → sB.behavior = .aggressive →
        (evaluateCompatibility store [e1, e2]).warnings.length = 1 ∧
        (evaluateCompatibility store [e1, e2]).status = .warn)
    ∧ (∀ e1 e2 : AquariumStock, ∀ sA sB : FishSpecies,
        findFish store e1.speciesId = some sA →
        findFish store e2.speciesId = some sB →
        sA.behavior = .peaceful → sB.behavior = .peaceful →
        (evaluateCompatibility store [e1, e2]).warnings = [] ∧
        (evaluateCompatibility store [e1, e2]).status = .ok) := by
  refine ⟨?_, ?_, ?_, ?_, ?_⟩
  · simpa [evaluateCompatibility] using scanPairs_eq_filterMap store stock
  · unfold evaluateCompatibility
    cases scanPairs store stock <;> simp
  · intro first second sA sB hA hB
    refine ⟨?_, ?_, ?_⟩
    · intro hinc
      unfold pairWarning
      rw [hA, hB]
      rcases hinc with h | h
      · simp [h]
      · by_cases h' : sB.behavior ∈ (behaviorMatrix sA.behavior).incompatibleWith
        · simp [h']
        · simp [h', h]
    · intro hninc hcau
      have h1 : sB.behavior ∉ (behaviorMatrix sA.behavior).incompatibleWith :=
        fun h => hninc (Or.inl h)
      have h2 : sA.behavior ∉ (behaviorMatrix sB.behavior).incompatibleWith :=
        fun h => hninc (Or.inr h)
      unfold pairWarning
      rw [hA, hB]
      rcases hcau with h | h
      · simp [h1, h2, h]
      · by_cases h' : sB.behavior ∈ ((behaviorMatrix sA.behavior).cautionWith.getD [])
        · simp [h1, h2, h']
        · simp [h1, h2, h', h]
    · intro hninc hncau
      have h1 : sB.behavior ∉ (behaviorMatrix sA.behavior).incompatibleWith :=
        fun h => hninc (Or.inl h)
      have h2 : sA.behavior ∉ (behaviorMatrix sB.behavior).incompatibleWith :=
        fun h => hninc (Or.inr h)
      have h3 : sB.behavior ∉ ((behaviorMatrix sA.behavior).cautionWith.getD []) :=
        fun h => hncau (Or.inl h)
      have h4 : sA.behavior ∉ ((behaviorMatrix sB.behavior).cautionWith.getD []) :=
        fun h => hncau (Or.inr h)
      unfold pairWarning
      rw [hA, hB]
      simp [h1, h2, h3, h4]
  · intro e1 e2 sA sB hA hB hpA hpB
    have hw : pairWarning store e1 e2 = some
        { speciesAId := sA.id, speciesBId := sB.id
          message := sA.commonName ++ " и " ++ sB.commonName ++
            " часто конфликтуют из-за несовместимого поведения." } := by
      unfold pairWarning
      simp [hA, hB, hpA, hpB, behaviorMatrix]
    constructor <;>
      simp [evaluateCompatibility, scanPairs, scanAgainst, hw]
  · intro e1 e2 sA sB hA hB hpA hpB
    have hw : pairWarning store e1 e2 = none := by
      unfold pairWarning
      simp [hA, hB, hpA, hpB, behaviorMatrix]
    constructor <;>
      simp [evaluateCompatibility, scanPairs, scanAgainst, hw]

/-- C2 witness: a guppy (peaceful) with a betta (aggressive) yields one
warning and status warn; a guppy with a molly (both peaceful) yields no
warnings and status ok. -/
theorem claim_C2_compatibility_witness :
    ((evaluateCompatibility initialStore [guppyStock, bettaStock]).warnings.length = 1 ∧
      (evaluateCompatibility initialStore [guppyStock, bettaStock]).status = .warn)
    ∧ ((evaluateCompatibility initialStore [guppyStock, mollyStock]).warnings = [] ∧
      (evaluateCompatibility initialStore [guppyStock, mollyStock]).status = .ok) :=
  ⟨(claim_C2_compatibility initialStore [guppyStock, bettaStock]).2.2.2.1
      guppyStock bettaStock guppyFish
      { id := "betta", commonName := "Петушок", scientificName := "Betta splendens"
        recommendedVolumePerFish := 15, behavior := .aggressive, bioLoadFactor := 3 / 2
        isSchooling := false
        notes := some "Самцы агрессивны к себе подобным и предпочитают одиночное содержание." }
      (by rfl) (by rfl) rfl rfl,
   (claim_C2_compatibility initialStore [guppyStock, mollyStock]).2.2.2.2
      guppyStock mollyStock guppyFish
      { id := "molly", commonName := "Моллинезия", scientificName := "Poecilia sphenops"
        recommendedVolumePerFish := 10, behavior := .peaceful, bioLoadFactor := 6 / 5
        isSchooling := true
        notes := some "Требуют стабильных параметров воды и добавления соли в некоторых вариантах содержания." }
      (by rfl) (by rfl) rfl rfl⟩

/-! ## Claim C6: overdue transitions of updateTaskStatus -/

/-- C6: for a task processed by a recalculation, a non-completed task past
due that is not yet overdue becomes overdue; a non-completed task not past
due that is overdue recovers to active; in every other (non-rollover) case
the task's status and nextDueAt are unchanged — an interval change alone
never clears an overdue flag while the due date stays in the past.  The
last conjunct records that one application of the rule already settles a
non-completed task, so the rule's second application within a
recalculation changes nothing. -/
theorem claim_C6_overdue_transitions (now : Time) (t : CareTask) :
    (t.status ≠ .completed → isAfter now t.nextDueAt = true → t.status ≠ .overdue →
      (updateTaskStatus now t).status = .overdue ∧
      (updateTaskStatus now t).nextDueAt = t.nextDueAt)
    ∧ (t.status ≠ .completed → isAfter now t.nextDueAt = false → t.status = .overdue →
      (updateTaskStatus now t).status = .active ∧
      (updateTaskStatus now t).nextDueAt = t.nextDueAt)
    ∧ (t.status ≠ .completed → isAfter now t.nextDueAt = true → t.status = .overdue →
      updateTaskStatus now t = t)
    ∧ (t.status ≠ .completed → isAfter now t.nextDueAt = false → t.status ≠ .overdue →
      updateTaskStatus now t = t)
    ∧ (t.status = .completed → differenceInCalendarDays now t.nextDueAt < t.intervalDays →
      updateTaskStatus now t = t)
    ∧ (t.status ≠ .completed →
      updateTaskStatus now (updateTaskStatus now t) = updateTaskStatus now t) := by
  refine ⟨?_, ?_, ?_, ?_, ?_, ?_⟩
  · intro hs ha ho
    unfold updateTaskStatus
    simp [hs, ha, ho]
  · intro hs ha ho
    unfold updateTaskStatus
    simp [hs, ha, ho]
  · intro hs ha ho
    unfold updateTaskStatus
    simp [hs, ha, ho]
  · intro hs ha ho
    unfold updateTaskStatus
    simp [hs, ha, ho]
  · intro hs hd
    unfold updateTaskStatus
    simp [hs, not_le.mpr hd]
  · exact fun hs => updateTaskStatus_two_of_not_completed now t hs

/-- C6 witness: an active task one day past due becomes overdue at the
same due date; the same task already overdue is left unchanged. -/
theorem claim_C6_overdue_transitions_witness :
    ((updateTaskStatus dayMs sampleTaskActive).status = .overdue ∧
      (updateTaskStatus dayMs sampleTaskActive).nextDueAt = sampleTaskActive.nextDueAt)
    ∧ updateTaskStatus dayMs { sampleTaskActive with status := .overdue }
        = { sampleTaskActive with status := .overdue } :=
  ⟨(claim_C6_overdue_transitions dayMs sampleTaskActive).1
      (by decide) (by decide) (by decide),
    (claim_C6_overdue_transitions dayMs { sampleTaskActive with status := .overdue }).2.2.1
      (by decide) (by decide) (by decide)⟩

/-! ## Claims C3 and C4: completed rollover and new-task creation -/

/-- Applying the transition rule twice (as one recalculation does) to a
completed task that is due to roll over: the due date advances by exactly
the interval, and the final status depends on whether the advanced date is
already in the past. -/
theorem updateTaskStatus_two_completed (now : Time) (u : CareTask)
    (hc : u.status = .completed)
    (hd : differenceInCalendarDays now u.nextDueAt ≥ u.intervalDays) :
    (updateTaskStatus now (updateTaskStatus now u)).nextDueAt
        = addDaysMs u.nextDueAt u.intervalDays
    ∧ (updateTaskStatus now (updateTaskStatus now u)).status =
        (if isAfter now (addDaysMs u.nextDueAt u.intervalDays)
         then .overdue else .active) := by
  rw [updateTaskStatus_completed_rolls now u hc hd]
  constructor
  · rw [updateTaskStatus_nextDueAt_of_not_completed now _ (by simp)]
  · rw [updateTaskStatus_status_of_not_completed now _ (by simp)]
    simp

theorem mem_mergeCareTasks (store : DataStore) (now : Time)
    (fresh : CareTaskType → String) (aquarium : Aquarium) (user : User)
    (desiredStatus : AquariumStatusLevel) (t' : CareTask)
    (ht' : t' ∈ mergeCareTasks store now fresh aquarium user desiredStatus) :
    ∃ tmpl ∈ baseTasks,
      t' = updateTaskStatus now
        (mergeTemplate ((mapGet store.careTasks aquarium.id).getD []) now fresh
          aquarium.id user.notificationSettings.preferredTime
          user.notificationSettings.channel
          user.notificationSettings.muteFeedingReminders
          (intervalMatrix desiredStatus) tmpl) := by
  unfold mergeCareTasks at ht'
  rw [List.map_map] at ht'
  obtain ⟨tmpl, htmpl, heq⟩ := List.mem_map.mp ht'
  exact ⟨tmpl, htmpl, heq.symm⟩

/-- C3 counterexample: the stale completed task satisfies the claim's
premises (completed, 100 ≥ 14 whole days since its due date, interval 14
both before and after the merge), yet after the recalculation's merge its
status is overdue — not active as the claim states — because the status
transition rule runs again on the rolled-forward task.  Its nextDueAt is
still advanced by exactly the interval. -/
theorem claim_C3_counterexample :
    staleTask.status = .completed
    ∧ differenceInCalendarDays nowDay100 staleTask.nextDueAt ≥ staleTask.intervalDays
    ∧ staleTask.intervalDays = (intervalMatrix .comfort).get .water_change
    ∧ ((mergeCareTasks staleStore nowDay100 sampleFresh sampleAquarium sampleUser
          .comfort).find? fun t => decide (t.type = .water_change)).map
        (fun t => (t.status, t.nextDueAt))
      = some (.overdue, addDaysMs staleTask.nextDueAt staleTask.intervalDays)
    ∧ CareTaskStatus.overdue ≠ CareTaskStatus.active := by
  refine ⟨rfl, by decide, rfl, ?_, by decide⟩
  decide

/-- C3 (amended): for every care task of the tank that is completed at the
start of a recalculation and whose whole-day age since nextDueAt is at
least the interval freshly assigned for the tank's status, the
recalculation advances nextDueAt by exactly that interval (from the prior
due date, not from now), and the task ends active when the advanced due
date is not in the past, else it is immediately flagged overdue. -/
theorem claim_C3_rollover_amended (store : DataStore) (now : Time)
    (fresh : CareTaskType → String) (aquarium : Aquarium) (user : User)
    (desiredStatus : AquariumStatusLevel) :
    ∀ t' ∈ mergeCareTasks store now fresh aquarium user desiredStatus,
    ∀ t : CareTask,
      ((mapGet store.careTasks aquarium.id).getD []).find?
          (fun task => decide (task.type = t'.type)) = some t →
      t.status = .completed →
      differenceInCalendarDays now t.nextDueAt ≥
          (intervalMatrix desiredStatus).get t'.type →
      t'.nextDueAt =
          addDaysMs t.nextDueAt ((intervalMatrix desiredStatus).get t'.type)
      ∧ t'.status =
          (if isAfter now (addDaysMs t.nextDueAt
              ((intervalMatrix desiredStatus).get t'.type))
           then .overdue else .active) := by
  intro t' ht' t hfind hc hd
  obtain ⟨tmpl, htmpl, rfl⟩ :=
    mem_mergeCareTasks store now fresh aquarium user desiredStatus t' ht'
  have htype : (updateTaskStatus now
      (mergeTemplate ((mapGet store.careTasks aquarium.id).getD []) now fresh
        aquarium.id user.notificationSettings.preferredTime
        user.notificationSettings.channel
        user.notificationSettings.muteFeedingReminders
        (intervalMatrix desiredStatus) tmpl)).type = tmpl.type := by
    rw [updateTaskStatus_type, mergeTemplate_type]
  simp only [htype] at hfind hd ⊢
  set ivl := (intervalMatrix desiredStatus).get tmpl.type with hivl
  have hg : mergeTemplate ((mapGet store.careTasks aquarium.id).getD []) now fresh
      aquarium.id user.notificationSettings.preferredTime
      user.notificationSettings.channel
      user.notificationSettings.muteFeedingReminders
      (intervalMatrix desiredStatus) tmpl
      = updateTaskStatus now
        { t with
          title := tmpl.title
          description := tmpl.description
          requiresMeasurement := tmpl.requiresMeasurement
          intervalDays := ivl
          channel := if tmpl.type = .feeding ∧
              user.notificationSettings.muteFeedingReminders then .off
            else user.notificationSettings.channel
          updatedAt := now } := by
    unfold mergeTemplate
    rw [hfind]
  rw [hg]
  exact updateTaskStatus_two_completed now _ hc hd

/-- C3 witness (for the amended theorem): the concrete stale task rolls
forward by 14 days and, the advanced date still lying in the past, ends
overdue. -/
theorem claim_C3_rollover_amended_witness :
    ∃ t' ∈ mergeCareTasks staleStore nowDay100 sampleFresh sampleAquarium
        sampleUser .comfort,
      t'.nextDueAt = addDaysMs staleTask.nextDueAt
          ((intervalMatrix .comfort).get t'.type)
      ∧ t'.status = (if isAfter nowDay100 (addDaysMs staleTask.nextDueAt
            ((intervalMatrix .comfort).get t'.type))
         then .overdue else .active) := by
  have hmem : (mergeCareTasks staleStore nowDay100 sampleFresh sampleAquarium
      sampleUser .comfort).find? (fun t => decide (t.type = .water_change))
      = some (((mergeCareTasks staleStore nowDay100 sampleFresh sampleAquarium
        sampleUser .comfort).find?
          (fun t => decide (t.type = .water_change))).getD sampleTaskActive) := by
    decide
  refine ⟨((mergeCareTasks staleStore nowDay100 sampleFresh sampleAquarium
      sampleUser .comfort).find?
        (fun t => decide (t.type = .water_change))).getD sampleTaskActive, ?_, ?_⟩
  · exact List.mem_of_find?_eq_some hmem
  · exact claim_C3_rollover_amended staleStore nowDay100 sampleFresh sampleAquarium
      sampleUser .comfort _ (List.mem_of_find?_eq_some hmem) staleTask
      (by decide) (by decide) (by decide)

theorem preferredHour_nonneg (p : NotificationPreferenceTime) :
    0 ≤ preferredHour p := by
  cases p <;> norm_num [preferredHour]

/-- C4 counterexample: with no existing tasks and a morning (09:00)
preference, a recalculation at 10:00 UTC creates the feeding task due at
09:00 the same day, and the status transition pass flags it overdue
immediately — not active as the claim states. -/
theorem claim_C4_counterexample :
    (mapGet initialStore.careTasks sampleAquarium.id).getD [] = []
    ∧ sampleUser.notificationSettings.preferredTime = .morning
    ∧ ((mergeCareTasks initialStore nowTenAM sampleFresh sampleAquarium
          sampleUser .comfort).find? fun t => decide (t.type = .feeding)).map
        (fun t => (t.status, t.nextDueAt))
      = some (.overdue, 9 * 3600000)
    ∧ CareTaskStatus.overdue ≠ CareTaskStatus.active := by
  refine ⟨rfl, rfl, by decide, by decide⟩

/-- C4 (amended): during a recalculation, each task kind with no existing
instance is created with nextDueAt now (feeding, observe) or tomorrow
(all other kinds) at the preferred hour (morning 09:00, evening 19:00,
else 12:00 UTC), with parameter placeholders at 0 for measurement-bearing
kinds; the created task ends the recalculation active unless it is a
feeding or observe task whose due time earlier the same day has already
passed, in which case it is immediately overdue (kinds due tomorrow are
always active). -/
theorem claim_C4_new_tasks_amended (store : DataStore) (now : Time)
    (fresh : CareTaskType → String) (aquarium : Aquarium) (user : User)
    (desiredStatus : AquariumStatusLevel) :
    (preferredHour .morning = 9 ∧ preferredHour .evening = 19 ∧
      preferredHour .any = 12)
    ∧ ∀ t' ∈ mergeCareTasks store now fresh aquarium user desiredStatus,
      ((mapGet store.careTasks aquarium.id).getD []).find?
          (fun task => decide (task.type = t'.type)) = none →
      ∃ tmpl ∈ baseTasks, tmpl.type = t'.type
        ∧ t'.nextDueAt = normalizeDueDate now
            (if tmpl.type = .feeding ∨ tmpl.type = .observe then 0 else 1)
            user.notificationSettings.preferredTime
        ∧ t'.status = (if isAfter now t'.nextDueAt then .overdue else .active)
        ∧ (¬ (tmpl.type = .feeding ∨ tmpl.type = .observe) → t'.status = .active)
        ∧ t'.parameters = tmpl.measurementKeys.map
            (List.map fun k => { parameter := k, value := 0 })
        ∧ t'.createdAt = now := by
  refine ⟨⟨rfl, rfl, rfl⟩, ?_⟩
  intro t' ht' hnone
  obtain ⟨tmpl, htmpl, rfl⟩ :=
    mem_mergeCareTasks store now fresh aquarium user desiredStatus t' ht'
  have htype : (updateTaskStatus now
      (mergeTemplate ((mapGet store.careTasks aquarium.id).getD []) now fresh
        aquarium.id user.notificationSettings.preferredTime
        user.notificationSettings.channel
        user.notificationSettings.muteFeedingReminders
        (intervalMatrix desiredStatus) tmpl)).type = tmpl.type := by
    rw [updateTaskStatus_type, mergeTemplate_type]
  simp only [htype] at hnone
  have hg : mergeTemplate ((mapGet store.careTasks aquarium.id).getD []) now fresh
      aquarium.id user.notificationSettings.preferredTime
      user.notificationSettings.channel
      user.notificationSettings.muteFeedingReminders
      (intervalMatrix desiredStatus) tmpl
      = { id := fresh tmpl.type
          aquariumId := aquarium.id
          type := tmpl.type
          title := tmpl.title
          description := tmpl.description
          intervalDays := (intervalMatrix desiredStatus).get tmpl.type
          nextDueAt := normalizeDueDate now
            (if tmpl.type = .feeding ∨ tmpl.type = .observe then 0 else 1)
            user.notificationSettings.preferredTime
          lastCompletedAt := none
          status := .active
          channel := if tmpl.type = .feeding ∧
              user.notificationSettings.muteFeedingReminders then .off
            else user.notificationSettings.channel
          requiresMeasurement := tmpl.requiresMeasurement
          parameters := tmpl.measurementKeys.map
            (List.map fun p => { parameter := p, value := 0 })
          createdAt := now
          updatedAt := now } := by
    unfold mergeTemplate
    rw [hnone]
  refine ⟨tmpl, htmpl, htype.symm, ?_, ?_, ?_, ?_, ?_⟩
  · rw [hg, updateTaskStatus_nextDueAt_of_not_completed now _ (by simp)]
  · rw [hg, updateTaskStatus_status_of_not_completed now _ (by simp),
      updateTaskStatus_nextDueAt_of_not_completed now _ (by simp)]
    simp
  · intro hno
    rw [hg, updateTaskStatus_status_of_not_completed now _ (by simp)]
    have hdue : normalizeDueDate now
        (if tmpl.type = .feeding ∨ tmpl.type = .observe then 0 else 1)
        user.notificationSettings.preferredTime
        = (calendarDay now + 1) * dayMs +
            preferredHour user.notificationSettings.preferredTime * hourMs := by
      rw [if_neg hno]
      unfold normalizeDueDate setUTCHours
      rw [calendarDay_addDay]
    have hle : now ≤ normalizeDueDate now
        (if tmpl.type = .feeding ∨ tmpl.type = .observe then 0 else 1)
        user.notificationSettings.preferredTime := by
      rw [hdue]
      have h1 := lt_next_day now
      have h2 : 0 ≤ preferredHour user.notificationSettings.preferredTime * hourMs :=
        mul_nonneg (preferredHour_nonneg _) (by norm_num [hourMs])
      linarith
    have hna : isAfter now (normalizeDueDate now
        (if tmpl.type = .feeding ∨ tmpl.type = .observe then 0 else 1)
        user.notificationSettings.preferredTime) = false := by
      simp [isAfter, not_lt.mpr hle]
    simp [hna]
  · rw [hg, updateTaskStatus_parameters]
  · rw [hg, updateTaskStatus_createdAt]

/-- C4 witness (for the amended theorem): the feeding task created at
10:00 UTC with a morning preference. -/
theorem claim_C4_new_tasks_amended_witness :
    ∃ tmpl ∈ baseTasks, tmpl.type =
        (((mergeCareTasks initialStore nowTenAM sampleFresh sampleAquarium
            sampleUser .comfort).find?
          (fun t => decide (t.type = .feeding))).getD sampleTaskActive).type
      ∧ (((mergeCareTasks initialStore nowTenAM sampleFresh sampleAquarium
            sampleUser .comfort).find?
          (fun t => decide (t.type = .feeding))).getD sampleTaskActive).nextDueAt
          = normalizeDueDate nowTenAM
            (if tmpl.type = .feeding ∨ tmpl.type = .observe then 0 else 1)
            sampleUser.notificationSettings.preferredTime
      ∧ (((mergeCareTasks initialStore nowTenAM sampleFresh sampleAquarium
            sampleUser .comfort).find?
          (fun t => decide (t.type = .feeding))).getD sampleTaskActive).status
          = (if isAfter nowTenAM
              (((mergeCareTasks initialStore nowTenAM sampleFresh sampleAquarium
                  sampleUser .comfort).find?
                (fun t => decide (t.type = .feeding))).getD sampleTaskActive).nextDueAt
             then .overdue else .active)
      ∧ (¬ (tmpl.type = .feeding ∨ tmpl.type = .observe) →
          (((mergeCareTasks initialStore nowTenAM sampleFresh sampleAquarium
              sampleUser .comfort).find?
            (fun t => decide (t.type = .feeding))).getD sampleTaskActive).status
            = .active)
      ∧ (((mergeCareTasks initialStore nowTenAM sampleFresh sampleAquarium
            sampleUser .comfort).find?
          (fun t => decide (t.type = .feeding))).getD sampleTaskActive).parameters
          = tmpl.measurementKeys.map (List.map fun k => { parameter := k, value := 0 })
      ∧ (((mergeCareTasks initialStore nowTenAM sampleFresh sampleAquarium
            sampleUser .comfort).find?
          (fun t => decide (t.type = .feeding))).getD sampleTaskActive).createdAt
          = nowTenAM := by
  have hfind : (mergeCareTasks initialStore nowTenAM sampleFresh sampleAquarium
      sampleUser .comfort).find? (fun t => decide (t.type = .feeding))
      = some (((mergeCareTasks initialStore nowTenAM sampleFresh sampleAquarium
          sampleUser .comfort).find?
        (fun t => decide (t.type = .feeding))).getD sampleTaskActive) := by
    decide
  exact (claim_C4_new_tasks_amended initialStore nowTenAM sampleFresh
      sampleAquarium sampleUser .comfort).2 _
    (List.mem_of_find?_eq_some hfind) (by decide)

/-! ## More map and list helper lemmas -/

theorem mapGet_mapSet_ne (m : List (String × α)) (k k' : String) (v : α)
    (h : k ≠ k') : mapGet (mapSet m k v) k' = mapGet m k' := by
  induction m with
  | nil => simp [mapGet, mapSet, h]
  | cons p rest ih =>
    by_cases hk : p.1 = k
    · simp [mapGet, mapSet, hk, h]
    · rw [show mapSet (p :: rest) k v = p :: mapSet rest k v by
        rw [mapSet, if_neg hk]]
      by_cases hk' : p.1 = k'
      · simp [mapGet, hk']
      · simpa [mapGet, hk'] using ih

theorem setFirst_length (p : α → Bool) (f : α → α) (l : List α) :
    (setFirst p f l).length = l.length := by
  induction l with
  | nil => rfl
  | cons x xs ih =>
    unfold setFirst
    by_cases hx : p x <;> simp [hx, ih]

theorem mem_setFirst_of_neg (p : α → Bool) (f : α → α) (l : List α) (x : α)
    (hx : x ∈ l) (hpx : p x = false) : x ∈ setFirst p f l := by
  induction l with
  | nil => cases hx
  | cons y ys ih =>
    unfold setFirst
    rcases List.mem_cons.mp hx with rfl | hx'
    · simp [hpx]
    · by_cases hy : p y
      · simp only [hy, if_pos]
        exact List.mem_cons_of_mem _ hx'
      · simp only [hy, if_neg, Bool.false_eq_true, not_false_eq_true]
        exact List.mem_cons_of_mem _ (ih hx')

/-! ## Claim C5: markTaskComplete behaviour -/

/-- C5: `markTaskComplete` returns null whenever the tank does not exist,
the tank belongs to a different owner, or the task id is absent from the
tank's task list; on success it returns the task with status completed,
`lastCompletedAt` the completion time, `nextDueAt` the completion time
plus the task's interval, and, for measurement-bearing tasks, each
parameter's value replaced by the supplied measurement when one is present
for that parameter and kept unchanged otherwise (non-measurement tasks
keep their parameters). -/
theorem claim_C5_markTaskComplete (store : DataStore) (now : Time) (user : User)
    (aquariumId taskId : String)
    (measurements : Option (List (WaterParameterKey × ℚ))) :
    (mapGet store.aquariums aquariumId = none →
      (markTaskComplete store now user aquariumId taskId measurements).1 = none)
    ∧ (∀ a, mapGet store.aquariums aquariumId = some a → a.userId ≠ user.id →
      (markTaskComplete store now user aquariumId taskId measurements).1 = none)
    ∧ (∀ a, mapGet store.aquariums aquariumId = some a → a.userId = user.id →
      ((mapGet store.careTasks aquariumId).getD []).find?
          (fun item => decide (item.id = taskId)) = none →
      (markTaskComplete store now user aquariumId taskId measurements).1 = none)
    ∧ (∀ a task, mapGet store.aquariums aquariumId = some a → a.userId = user.id →
      ((mapGet store.careTasks aquariumId).getD []).find?
          (fun item => decide (item.id = taskId)) = some task →
      ((markTaskComplete store now user aquariumId taskId measurements).1.map
          (·.status) = some .completed)
      ∧ ((markTaskComplete store now user aquariumId taskId measurements).1.map
          (·.lastCompletedAt) = some (some now))
      ∧ ((markTaskComplete store now user aquariumId taskId measurements).1.map
          (·.nextDueAt) = some (addDaysMs now task.intervalDays))
      ∧ (task.requiresMeasurement = true →
          (markTaskComplete store now user aquariumId taskId measurements).1.map
            (·.parameters)
          = some (task.parameters.map (List.map fun p =>
              { p with value := (measurementFor measurements p.parameter).getD p.value })))
      ∧ (task.requiresMeasurement = false →
          (markTaskComplete store now user aquariumId taskId measurements).1.map
            (·.parameters) = some task.parameters)) := by
  refine ⟨?_, ?_, ?_, ?_⟩
  · intro h
    unfold markTaskComplete
    rw [h]
  · intro a ha howner
    unfold markTaskComplete
    rw [ha]
    simp [howner]
  · intro a ha howner hfind
    unfold markTaskComplete
    rw [ha]
    simp [howner, hfind]
  · intro a task ha howner hfind
    unfold markTaskComplete
    rw [ha]
    simp only [howner, ite_not, if_pos, if_neg, hfind, not_true_eq_false, if_false]
    refine ⟨by simp, by simp, by simp, ?_, ?_⟩
    · intro hreq
      simp [hreq]
    · intro hreq
      simp [hreq]

/-- C5 witness: completing the pH test task with a pH measurement of 7.2
stores 7.2 and sets the completion fields. -/
theorem claim_C5_markTaskComplete_witness :
    ((markTaskComplete serviceStore nowTenAM sampleUser "aq-1" "task-ph"
        (some [(.pH, 36 / 5)])).1.map (·.status) = some .completed)
    ∧ ((markTaskComplete serviceStore nowTenAM sampleUser "aq-1" "task-ph"
        (some [(.pH, 36 / 5)])).1.map (·.lastCompletedAt) = some (some nowTenAM))
    ∧ ((markTaskComplete serviceStore nowTenAM sampleUser "aq-1" "task-ph"
        (some [(.pH, 36 / 5)])).1.map (·.nextDueAt)
        = some (addDaysMs nowTenAM testPhTask.intervalDays))
    ∧ (testPhTask.requiresMeasurement = true →
        (markTaskComplete serviceStore nowTenAM sampleUser "aq-1" "task-ph"
          (some [(.pH, 36 / 5)])).1.map (·.parameters)
        = some (testPhTask.parameters.map (List.map fun p =>
            { p with value := ((measurementFor (some [(.pH, 36 / 5)])
                p.parameter).getD p.value) })))
    ∧ (testPhTask.requiresMeasurement = false →
        (markTaskComplete serviceStore nowTenAM sampleUser "aq-1" "task-ph"
          (some [(.pH, 36 / 5)])).1.map (·.parameters) = some testPhTask.parameters) :=
  (claim_C5_markTaskComplete serviceStore nowTenAM sampleUser "aq-1" "task-ph"
      (some [(.pH, 36 / 5)])).2.2.2 sampleAquarium testPhTask rfl rfl (by decide)

/-! ## Claim C10: markTaskComplete frame -/

/-- C10: a successful completion mutates only the identified task: the
tank map (hence the tank record with all its derived fields and
`lastCalculatedAt` — no recalculation happens), the stock map, and every
other entity map are unchanged; in the tank's task list only the first
task with the given id is replaced, the list keeps its length, and every
task with a different id is still present; other tanks' task lists are
untouched. -/
theorem claim_C10_markTaskComplete_frame (store : DataStore) (now : Time)
    (user : User) (aquariumId taskId : String)
    (measurements : Option (List (WaterParameterKey × ℚ)))
    (a : Aquarium) (task : CareTask)
    (ha : mapGet store.aquariums aquariumId = some a)
    (howner : a.userId = user.id)
    (hfind : ((mapGet store.careTasks aquariumId).getD []).find?
        (fun item => decide (item.id = taskId)) = some task) :
    (markTaskComplete store now user aquariumId taskId measurements).2.aquariums
        = store.aquariums
    ∧ (markTaskComplete store now user aquariumId taskId measurements).2.aquariumStock
        = store.aquariumStock
    ∧ (markTaskComplete store now user aquariumId taskId measurements).2.users
        = store.users
    ∧ (markTaskComplete store now user aquariumId taskId measurements).2.sessions
        = store.sessions
    ∧ (markTaskComplete store now user aquariumId taskId measurements).2.fishSpecies
        = store.fishSpecies
    ∧ (∀ k, k ≠ aquariumId →
        mapGet (markTaskComplete store now user aquariumId taskId
          measurements).2.careTasks k = mapGet store.careTasks k)
    ∧ ∃ newTasks,
        mapGet (markTaskComplete store now user aquariumId taskId
            measurements).2.careTasks aquariumId = some newTasks
        ∧ newTasks.length = ((mapGet store.careTasks aquariumId).getD []).length
        ∧ ∀ x ∈ (mapGet store.careTasks aquariumId).getD [],
            x.id ≠ taskId → x ∈ newTasks := by
  unfold markTaskComplete
  rw [ha]
  dsimp only
  rw [if_neg (by simp [howner]), hfind]
  refine ⟨rfl, rfl, rfl, rfl, rfl, ?_, ?_⟩
  · intro k hk
    exact mapGet_mapSet_ne _ _ _ _ (Ne.symm hk)
  · refine ⟨_, mapGet_mapSet_self _ _ _, setFirst_length _ _ _, ?_⟩
    intro x hx hxid
    exact mem_setFirst_of_neg _ _ _ _ hx (by simp [hxid])

/-- C10 witness: completing the pH task in the concrete store leaves the
tank, stock and other maps unchanged and only replaces that task. -/
theorem claim_C10_markTaskComplete_frame_witness :
    (markTaskComplete serviceStore nowTenAM sampleUser "aq-1" "task-ph"
        (some [(.pH, 36 / 5)])).2.aquariums = serviceStore.aquariums
    ∧ (markTaskComplete serviceStore nowTenAM sampleUser "aq-1" "task-ph"
        (some [(.pH, 36 / 5)])).2.aquariumStock = serviceStore.aquariumStock
    ∧ (markTaskComplete serviceStore nowTenAM sampleUser "aq-1" "task-ph"
        (some [(.pH, 36 / 5)])).2.users = serviceStore.users
    ∧ (markTaskComplete serviceStore nowTenAM sampleUser "aq-1" "task-ph"
        (some [(.pH, 36 / 5)])).2.sessions = serviceStore.sessions
    ∧ (markTaskComplete serviceStore nowTenAM sampleUser "aq-1" "task-ph"
        (some [(.pH, 36 / 5)])).2.fishSpecies = serviceStore.fishSpecies
    ∧ (∀ k, k ≠ "aq-1" →
        mapGet (markTaskComplete serviceStore nowTenAM sampleUser "aq-1" "task-ph"
          (some [(.pH, 36 / 5)])).2.careTasks k = mapGet serviceStore.careTasks k)
    ∧ ∃ newTasks,
        mapGet (markTaskComplete serviceStore nowTenAM sampleUser "aq-1" "task-ph"
            (some [(.pH, 36 / 5)])).2.careTasks "aq-1" = some newTasks
        ∧ newTasks.length = ((mapGet serviceStore.careTasks "aq-1").getD []).length
        ∧ ∀ x ∈ (mapGet serviceStore.careTasks "aq-1").getD [],
            x.id ≠ "task-ph" → x ∈ newTasks :=
  claim_C10_markTaskComplete_frame serviceStore nowTenAM sampleUser "aq-1"
    "task-ph" (some [(.pH, 36 / 5)]) sampleAquarium testPhTask rfl rfl (by decide)

/-! ## Claim C7: invariants after a recalculation pass -/

theorem evaluateCompatibility_nil (store : DataStore) :
    evaluateCompatibility store [] = { status := .ok, warnings := [] } := rfl

theorem summarizeBioLoad_nil (store : DataStore) (aquarium : Aquarium) :
    summarizeBioLoad store aquarium []
      = { requiredVolumeLiters := toFixed1 0, percentage := 0, status := .comfort } := by
  have h0 : jsRound (0 / aquarium.volumeLiters * 100) = 0 := by
    rw [zero_div, zero_mul]
    unfold jsRound
    rw [zero_add, Int.floor_eq_zero_iff]
    constructor <;> norm_num
  unfold summarizeBioLoad
  simp only [List.foldl_nil, h0, ite_self]
  norm_num

theorem mergeCareTasks_map_type (store : DataStore) (now : Time)
    (fresh : CareTaskType → String) (aquarium : Aquarium) (user : User)
    (desiredStatus : AquariumStatusLevel) :
    (mergeCareTasks store now fresh aquarium user desiredStatus).map (·.type)
      = baseTasks.map (·.type) := by
  unfold mergeCareTasks
  rw [List.map_map, List.map_map]
  exact List.map_congr_left fun tmpl _ => by
    simp [Function.comp, updateTaskStatus_type, mergeTemplate_type]

theorem mergeCareTasks_length (store : DataStore) (now : Time)
    (fresh : CareTaskType → String) (aquarium : Aquarium) (user : User)
    (desiredStatus : AquariumStatusLevel) :
    (mergeCareTasks store now fresh aquarium user desiredStatus).length
      = baseTasks.length := by
  have h1 := congrArg List.length
    (mergeCareTasks_map_type store now fresh aquarium user desiredStatus)
  simpa [List.length_map] using h1

theorem mergeCareTasks_countP (store : DataStore) (now : Time)
    (fresh : CareTaskType → String) (aquarium : Aquarium) (user : User)
    (desiredStatus : AquariumStatusLevel) (k : CareTaskType) :
    (mergeCareTasks store now fresh aquarium user desiredStatus).countP
      (fun t => decide (t.type = k)) = 1 := by
  have h2 : ((mergeCareTasks store now fresh aquarium user desiredStatus).map
      (·.type)).countP (fun ty => decide (ty = k)) = 1 := by
    rw [mergeCareTasks_map_type]
    cases k <;> rfl
  rw [List.countP_map] at h2
  exact h2

/-- C7: after a recalculation pass, a tank with empty stock has status
comfort, bio-load percentage 0, no warnings and an empty task list; a
tank with non-empty stock gets a stored task list of exactly one task per
each of the 10 fixed kinds. -/
theorem claim_C7_recalc_invariants (store : DataStore) (now : Time)
    (fresh : CareTaskType → String) (aquarium : Aquarium) (user : User) :
    baseTasks.length = 10
    ∧ ((mapGet store.aquariumStock aquarium.id).getD [] = [] →
      (recalculateAquariumInsights store now fresh aquarium user).1 = []
      ∧ mapGet (recalculateAquariumInsights store now fresh aquarium
          user).2.careTasks aquarium.id = some []
      ∧ ∃ a, mapGet (recalculateAquariumInsights store now fresh aquarium
            user).2.aquariums aquarium.id = some a
          ∧ a.status = .comfort ∧ a.bioLoadPercentage = 0 ∧ a.warnings = [])
    ∧ ((mapGet store.aquariumStock aquarium.id).getD [] ≠ [] →
      mapGet (recalculateAquariumInsights store now fresh aquarium
          user).2.careTasks aquarium.id
        = some ((recalculateAquariumInsights store now fresh aquarium user).1)
      ∧ ((recalculateAquariumInsights store now fresh aquarium user).1).length
          = baseTasks.length
      ∧ ∀ k : CareTaskType,
          ((recalculateAquariumInsights store now fresh aquarium user).1).countP
            (fun t => decide (t.type = k)) = 1) := by
  refine ⟨rfl, ?_, ?_⟩
  · intro h
    have hlen : ¬ (((mapGet store.aquariumStock aquarium.id).getD []).length > 0) := by
      simp [h]
    have ha : recalcUpdatedAquarium store now aquarium
        = { aquarium with
            status := .comfort
            bioLoadPercentage := 0
            requiredVolumeLiters := toFixed1 0
            compatibilityStatus := .ok
            warnings := []
            lastCalculatedAt := some now
            updatedAt := now } := by
      unfold recalcUpdatedAquarium
      rw [h]
      dsimp only
      rw [summarizeBioLoad_nil, evaluateCompatibility_nil]
    unfold recalculateAquariumInsights
    dsimp only
    rw [if_neg hlen]
    refine ⟨rfl, mapGet_mapSet_self _ _ _, ?_⟩
    refine ⟨recalcUpdatedAquarium store now aquarium, mapGet_mapSet_self _ _ _,
      ?_, ?_, ?_⟩ <;> rw [ha]
  · intro h
    have hlen : ((mapGet store.aquariumStock aquarium.id).getD []).length > 0 :=
      List.length_pos.mpr h
    unfold recalculateAquariumInsights
    dsimp only
    rw [if_pos hlen]
    refine ⟨mapGet_mapSet_self _ _ _, ?_, ?_⟩
    · exact mergeCareTasks_length _ _ _ _ _ _
    · exact fun k => mergeCareTasks_countP _ _ _ _ _ _ k

/-- C7 witness: the service store's tank has one stocked species (task
list fully materialized), and the same tank with its stock list emptied
ends at comfort with no tasks. -/
theorem claim_C7_recalc_invariants_witness :
    (mapGet (recalculateAquariumInsights serviceStore nowTenAM sampleFresh
        sampleAquarium sampleUser).2.careTasks sampleAquarium.id
      = some ((recalculateAquariumInsights serviceStore nowTenAM sampleFresh
        sampleAquarium sampleUser).1)
    ∧ ((recalculateAquariumInsights serviceStore nowTenAM sampleFresh
        sampleAquarium sampleUser).1).length = baseTasks.length
    ∧ ∀ k : CareTaskType,
        ((recalculateAquariumInsights serviceStore nowTenAM sampleFresh
          sampleAquarium sampleUser).1).countP
          (fun t => decide (t.type = k)) = 1)
    ∧ ((recalculateAquariumInsights initialStore nowTenAM sampleFresh
        sampleAquarium sampleUser).1 = []
    ∧ mapGet (recalculateAquariumInsights initialStore nowTenAM sampleFresh
        sampleAquarium sampleUser).2.careTasks sampleAquarium.id = some []
    ∧ ∃ a, mapGet (recalculateAquariumInsights initialStore nowTenAM sampleFresh
          sampleAquarium sampleUser).2.aquariums sampleAquarium.id = some a
        ∧ a.status = .comfort ∧ a.bioLoadPercentage = 0 ∧ a.warnings = []) :=
  ⟨(claim_C7_recalc_invariants serviceStore nowTenAM sampleFresh sampleAquarium
      sampleUser).2.2 (by decide),
   (claim_C7_recalc_invariants initialStore nowTenAM sampleFresh sampleAquarium
      sampleUser).2.1 (by decide)⟩

/-! ## Claim C9: not-found handling of stock operations -/

theorem recalc_snd_aquariums (store : DataStore) (now : Time)
    (fresh : CareTaskType → String) (a : Aquarium) (user : User) :
    (recalculateAquariumInsights store now fresh a user).2.aquariums
      = mapSet store.aquariums a.id (recalcUpdatedAquarium store now a) := by
  unfold recalculateAquariumInsights
  dsimp only
  split <;> rfl

theorem recalc_snd_careTasks (store : DataStore) (now : Time)
    (fresh : CareTaskType → String) (a : Aquarium) (user : User) :
    (recalculateAquariumInsights store now fresh a user).2.careTasks
      = mapSet store.careTasks a.id
          (recalculateAquariumInsights store now fresh a user).1 := by
  unfold recalculateAquariumInsights
  dsimp only
  split <;> rfl

theorem recalc_snd_aquariumStock (store : DataStore) (now : Time)
    (fresh : CareTaskType → String) (a : Aquarium) (user : User) :
    (recalculateAquariumInsights store now fresh a user).2.aquariumStock
      = store.aquariumStock := by
  unfold recalculateAquariumInsights
  dsimp only
  split <;> rfl

theorem recalc_snd_fishSpecies (store : DataStore) (now : Time)
    (fresh : CareTaskType → String) (a : Aquarium) (user : User) :
    (recalculateAquariumInsights store now fresh a user).2.fishSpecies
      = store.fishSpecies := by
  unfold recalculateAquariumInsights
  dsimp only
  split <;> rfl

theorem recalc_snd_users (store : DataStore) (now : Time)
    (fresh : CareTaskType → String) (a : Aquarium) (user : User) :
    (recalculateAquariumInsights store now fresh a user).2.users = store.users := by
  unfold recalculateAquariumInsights
  dsimp only
  split <;> rfl

theorem recalc_snd_sessions (store : DataStore) (now : Time)
    (fresh : CareTaskType → String) (a : Aquarium) (user : User) :
    (recalculateAquariumInsights store now fresh a user).2.sessions
      = store.sessions := by
  unfold recalculateAquariumInsights
  dsimp only
  split <;> rfl

theorem recalcUpdatedAquarium_id (store : DataStore) (now : Time) (a : Aquarium) :
    (recalcUpdatedAquarium store now a).id = a.id := rfl

theorem recalcUpdatedAquarium_userId (store : DataStore) (now : Time)
    (a : Aquarium) :
    (recalcUpdatedAquarium store now a).userId = a.userId := rfl

/-- After a recalculation for an owned tank whose record is keyed by its
own id, `getAquarium` finds the tank again (the operation cannot end in a
not-found result). -/
theorem getAquarium_after_recalc_isSome (store : DataStore) (now : Time)
    (fresh : CareTaskType → String) (a : Aquarium) (user : User)
    (aquariumId : String) (howner : a.userId = user.id) (hid : a.id = aquariumId) :
    (getAquarium (recalculateAquariumInsights store now fresh a user).2 user.id
      aquariumId).isSome = true := by
  have h2aq := recalc_snd_aquariums store now fresh a user
  have hget : mapGet (recalculateAquariumInsights store now fresh a
      user).2.aquariums aquariumId = some (recalcUpdatedAquarium store now a) := by
    rw [h2aq, ← hid]
    exact mapGet_mapSet_self _ _ _
  have huid : (recalcUpdatedAquarium store now a).userId = user.id := by
    rw [recalcUpdatedAquarium_userId]
    exact howner
  unfold getAquarium
  rw [hget]
  dsimp only
  rw [if_neg (by simp [huid])]
  have hmem0 : recalcUpdatedAquarium store now a
      ∈ mapValues (recalculateAquariumInsights store now fresh a user).2.aquariums := by
    apply mapGet_mem_mapValues _ aquariumId
    exact hget
  have hmem1 : recalcUpdatedAquarium store now a
      ∈ (mapValues (recalculateAquariumInsights store now fresh a
          user).2.aquariums).filter (fun x => decide (x.userId = user.id)) :=
    List.mem_filter.mpr ⟨hmem0, by simp [huid]⟩
  unfold getUserAquariums
  dsimp only
  simp only [List.find?_isSome]
  refine ⟨_, List.mem_map_of_mem _ hmem1, ?_⟩
  simp [recalcUpdatedAquarium_id, hid]

/-- C9 counterexample: in a well-formed store with an owned tank,
`removeFishFromAquarium` called with a stock id that matches no stock
entry does NOT return null — it succeeds and returns the tank. -/
theorem claim_C9_counterexample :
    ((mapGet serviceStore.aquariumStock "aq-1").getD []).find?
        (fun item => decide (item.id = "no-such-stock")) = none
    ∧ ((removeFishFromAquarium serviceStore nowTenAM sampleFresh sampleUser
        "aq-1" "no-such-stock").1).isSome = true := by
  constructor
  · decide
  · decide

/-- C9 (amended): `updateStockQuantity` returns null for a missing tank, a
foreign owner, or a stock id matching no entry; `removeFishFromAquarium`
returns null for a missing tank or a foreign owner, but a stock id
matching no entry is NOT a not-found case for it: for an owned tank it
always succeeds and returns the tank (the filter simply removes nothing). -/
theorem claim_C9_notfound_amended (store : DataStore) (now : Time)
    (fresh : CareTaskType → String) (user : User)
    (aquariumId stockId : String) (quantity : ℚ) :
    (0 < quantity → mapGet store.aquariums aquariumId = none →
      updateStockQuantity store now fresh user aquariumId stockId quantity
        = .ok (none, store))
    ∧ (0 < quantity → ∀ a, mapGet store.aquariums aquariumId = some a →
        a.userId ≠ user.id →
      updateStockQuantity store now fresh user aquariumId stockId quantity
        = .ok (none, store))
    ∧ (0 < quantity → ∀ a, mapGet store.aquariums aquariumId = some a →
        a.userId = user.id →
        ((mapGet store.aquariumStock aquariumId).getD []).find?
          (fun item => decide (item.id = stockId)) = none →
      updateStockQuantity store now fresh user aquariumId stockId quantity
        = .ok (none, store))
    ∧ (mapGet store.aquariums aquariumId = none →
      (removeFishFromAquarium store now fresh user aquariumId stockId).1 = none)
    ∧ (∀ a, mapGet store.aquariums aquariumId = some a → a.userId ≠ user.id →
      (removeFishFromAquarium store now fresh user aquariumId stockId).1 = none)
    ∧ (∀ a, mapGet store.aquariums aquariumId = some a → a.userId = user.id →
        a.id = aquariumId →
      ((removeFishFromAquarium store now fresh user aquariumId stockId).1).isSome
        = true) := by
  refine ⟨?_, ?_, ?_, ?_, ?_, ?_⟩
  · intro hq h
    unfold updateStockQuantity
    rw [if_neg (not_le.mpr hq), h]
  · intro hq a ha howner
    unfold updateStockQuantity
    rw [if_neg (not_le.mpr hq), ha]
    dsimp only
    rw [if_pos (by simpa using howner)]
  · intro hq a ha howner hfind
    unfold updateStockQuantity
    rw [if_neg (not_le.mpr hq), ha]
    dsimp only
    rw [if_neg (by simp [howner]), hfind]
  · intro h
    unfold removeFishFromAquarium
    rw [h]
  · intro a ha howner
    unfold removeFishFromAquarium
    rw [ha]
    dsimp only
    rw [if_pos (by simpa using howner)]
  · intro a ha howner hid
    unfold removeFishFromAquarium
    rw [ha]
    dsimp only
    rw [if_neg (by simp [howner])]
    exact getAquarium_after_recalc_isSome _ now fresh a user aquariumId howner hid

/-- C9 witness: with quantity 3, a bogus stock id makes
`updateStockQuantity` return not-found, while a bogus tank id makes
`removeFishFromAquarium` return not-found. -/
theorem claim_C9_notfound_amended_witness :
    (updateStockQuantity serviceStore nowTenAM sampleFresh sampleUser "aq-1"
        "no-such-stock" 3 = .ok (none, serviceStore))
    ∧ (removeFishFromAquarium serviceStore nowTenAM sampleFresh sampleUser
        "no-such-tank" "stock-1").1 = none
    ∧ ((removeFishFromAquarium serviceStore nowTenAM sampleFresh sampleUser
        "aq-1" "no-such-stock").1).isSome = true :=
  ⟨(claim_C9_notfound_amended serviceStore nowTenAM sampleFresh sampleUser
      "aq-1" "no-such-stock" 3).2.2.1 (by norm_num) sampleAquarium rfl rfl
      (by decide),
   (claim_C9_notfound_amended serviceStore nowTenAM sampleFresh sampleUser
      "no-such-tank" "stock-1" 1).2.2.2.1 rfl,
   (claim_C9_notfound_amended serviceStore nowTenAM sampleFresh sampleUser
      "aq-1" "no-such-stock" 1).2.2.2.2.2 sampleAquarium rfl rfl rfl⟩

/-! ## Claim C8: idempotence of recalculation -/

theorem pairWarning_congr (s1 s2 : DataStore)
    (h : s1.fishSpecies = s2.fishSpecies) (x y : AquariumStock) :
    pairWarning s1 x y = pairWarning s2 x y := by
  unfold pairWarning findFish
  rw [h]

theorem scanAgainst_congr (s1 s2 : DataStore)
    (h : s1.fishSpecies = s2.fishSpecies) (x : AquariumStock)
    (l : List AquariumStock) :
    scanAgainst s1 x l = scanAgainst s2 x l := by
  induction l with
  | nil => rfl
  | cons y ys ih =>
    unfold scanAgainst
    rw [pairWarning_congr s1 s2 h, ih]

theorem scanPairs_congr (s1 s2 : DataStore)
    (h : s1.fishSpecies = s2.fishSpecies) (l : List AquariumStock) :
    scanPairs s1 l = scanPairs s2 l := by
  induction l with
  | nil => rfl
  | cons x xs ih =>
    unfold scanPairs
    rw [scanAgainst_congr s1 s2 h, ih]

theorem evaluateCompatibility_congr (s1 s2 : DataStore)
    (h : s1.fishSpecies = s2.fishSpecies) (l : List AquariumStock) :
    evaluateCompatibility s1 l = evaluateCompatibility s2 l := by
  unfold evaluateCompatibility
  rw [scanPairs_congr s1 s2 h]

theorem summarizeBioLoad_congr (s1 s2 : DataStore) (a1 a2 : Aquarium)
    (h : s1.fishSpecies = s2.fishSpecies)
    (hv : a1.volumeLiters = a2.volumeLiters) (l : List AquariumStock) :
    summarizeBioLoad s1 a1 l = summarizeBioLoad s2 a2 l := by
  unfold summarizeBioLoad
  simp only [h, hv]

theorem recalcUpdatedAquarium_eq (s : DataStore) (now : Time) (a : Aquarium) :
    recalcUpdatedAquarium s now a
      = { a with
          status := (summarizeBioLoad s a
            ((mapGet s.aquariumStock a.id).getD [])).status
          bioLoadPercentage := (summarizeBioLoad s a
            ((mapGet s.aquariumStock a.id).getD [])).percentage
          requiredVolumeLiters := (summarizeBioLoad s a
            ((mapGet s.aquariumStock a.id).getD [])).requiredVolumeLiters
          compatibilityStatus := (evaluateCompatibility s
            ((mapGet s.aquariumStock a.id).getD [])).status
          warnings := (evaluateCompatibility s
            ((mapGet s.aquariumStock a.id).getD [])).warnings
          lastCalculatedAt := some now
          updatedAt := now } := rfl

theorem recalc_fst (s : DataStore) (now : Time) (fresh : CareTaskType → String)
    (a : Aquarium) (u : User) :
    (recalculateAquariumInsights s now fresh a u).1
      = if ((mapGet s.aquariumStock a.id).getD []).length > 0
        then baseTasks.map (fun tmpl => updateTaskStatus now
          (mergeTemplate ((mapGet s.careTasks a.id).getD []) now fresh a.id
            u.notificationSettings.preferredTime u.notificationSettings.channel
            u.notificationSettings.muteFeedingReminders
            (intervalMatrix (summarizeBioLoad s a
              ((mapGet s.aquariumStock a.id).getD [])).status) tmpl))
        else [] := by
  unfold recalculateAquariumInsights mergeCareTasks
  dsimp only
  split
  · rw [List.map_map]
    rfl
  · rfl

theorem recalc_snd (s : DataStore) (now : Time) (fresh : CareTaskType → String)
    (a : Aquarium) (u : User) :
    (recalculateAquariumInsights s now fresh a u).2
      = { s with
          aquariums := mapSet s.aquariums a.id (recalcUpdatedAquarium s now a)
          careTasks := mapSet s.careTasks a.id
            (recalculateAquariumInsights s now fresh a u).1 } := by
  unfold recalculateAquariumInsights
  dsimp only
  split <;> rfl

theorem mergeTemplate_of_find_some (existing : List CareTask) (now : Time)
    (fresh : CareTaskType → String) (aquariumId : String)
    (preference : NotificationPreferenceTime) (channel : NotificationChannel)
    (muteFeeding : Bool) (intervals : IntervalProfile)
    (template : BaseTaskTemplate) (e : CareTask)
    (hfind : existing.find? (fun task => decide (task.type = template.type))
      = some e) :
    mergeTemplate existing now fresh aquariumId preference channel muteFeeding
        intervals template
      = updateTaskStatus now
          { e with
            title := template.title
            description := template.description
            requiresMeasurement := template.requiresMeasurement
            intervalDays := intervals.get template.type
            channel := if template.type = .feeding ∧ muteFeeding then .off
              else channel
            updatedAt := now } := by
  unfold mergeTemplate
  rw [hfind]

theorem settled_mergeTemplate (existing : List CareTask) (now : Time)
    (fresh : CareTaskType → String) (aquariumId : String)
    (preference : NotificationPreferenceTime) (channel : NotificationChannel)
    (muteFeeding : Bool) (intervals : IntervalProfile)
    (template : BaseTaskTemplate) :
    TaskSettled now (updateTaskStatus now
      (mergeTemplate existing now fresh aquariumId preference channel
        muteFeeding intervals template)) := by
  unfold mergeTemplate
  cases hfind : existing.find? (fun task => decide (task.type = template.type)) with
  | some e =>
    simp only [hfind]
    exact settled_updateTaskStatus_two now _
  | none =>
    simp only [hfind]
    exact settled_updateTaskStatus_of_not_completed now _ (by simp)

/-- Feeding the output of one merge pass back in as the existing task list
reproduces it exactly: every template finds its own prior instance, the
in-place update writes the same field values, and the already settled
status transition changes nothing. -/
theorem merge_map_stable (E1 : List CareTask) (now : Time)
    (fresh fresh2 : CareTaskType → String) (aqid1 aqid2 : String)
    (pref : NotificationPreferenceTime) (chan : NotificationChannel)
    (mute : Bool) (ivl : IntervalProfile) :
    baseTasks.map (fun tmpl => updateTaskStatus now
      (mergeTemplate (baseTasks.map fun t2 => updateTaskStatus now
          (mergeTemplate E1 now fresh aqid1 pref chan mute ivl t2))
        now fresh2 aqid2 pref chan mute ivl tmpl))
    = baseTasks.map (fun tmpl => updateTaskStatus now
        (mergeTemplate E1 now fresh aqid1 pref chan mute ivl tmpl)) := by
  apply List.map_congr_left
  intro tmpl htmpl
  have hfind : (baseTasks.map fun t2 => updateTaskStatus now
      (mergeTemplate E1 now fresh aqid1 pref chan mute ivl t2)).find?
        (fun task => decide (task.type = tmpl.type))
      = some (updateTaskStatus now
          (mergeTemplate E1 now fresh aqid1 pref chan mute ivl tmpl)) := by
    exact find?_map_of_key baseTasks (fun x => x.type)
      (fun t2 => updateTaskStatus now
        (mergeTemplate E1 now fresh aqid1 pref chan mute ivl t2))
      (fun x => x.type)
      (fun x _ => by
        show (updateTaskStatus now
          (mergeTemplate E1 now fresh aqid1 pref chan mute ivl x)).type = x.type
        rw [updateTaskStatus_type, mergeTemplate_type])
      (by decide) tmpl htmpl
  rw [mergeTemplate_of_find_some _ _ _ _ _ _ _ _ _ _ hfind]
  have h1 : (updateTaskStatus now
      (mergeTemplate E1 now fresh aqid1 pref chan mute ivl tmpl)).title
      = tmpl.title := by
    rw [updateTaskStatus_title, mergeTemplate_title]
  have h2 : (updateTaskStatus now
      (mergeTemplate E1 now fresh aqid1 pref chan mute ivl tmpl)).description
      = tmpl.description := by
    rw [updateTaskStatus_description, mergeTemplate_description]
  have h3 : (updateTaskStatus now
      (mergeTemplate E1 now fresh aqid1 pref chan mute ivl tmpl)).intervalDays
      = ivl.get tmpl.type := by
    rw [updateTaskStatus_intervalDays, mergeTemplate_intervalDays]
  have h4 : (updateTaskStatus now
      (mergeTemplate E1 now fresh aqid1 pref chan mute ivl tmpl)).channel
      = (if tmpl.type = .feeding ∧ mute then .off else chan) := by
    rw [updateTaskStatus_channel, mergeTemplate_channel]
  have h5 : (updateTaskStatus now
      (mergeTemplate E1 now fresh aqid1 pref chan mute ivl tmpl)).requiresMeasurement
      = tmpl.requiresMeasurement := by
    rw [updateTaskStatus_requiresMeasurement, mergeTemplate_requiresMeasurement]
  have h6 : (updateTaskStatus now
      (mergeTemplate E1 now fresh aqid1 pref chan mute ivl tmpl)).updatedAt
      = now :=
    updateTaskStatus_updatedAt_of_now now _ (mergeTemplate_updatedAt _ _ _ _ _ _ _ _ _)
  have hadj : ({ updateTaskStatus now
        (mergeTemplate E1 now fresh aqid1 pref chan mute ivl tmpl) with
        title := tmpl.title
        description := tmpl.description
        requiresMeasurement := tmpl.requiresMeasurement
        intervalDays := ivl.get tmpl.type
        channel := if tmpl.type = .feeding ∧ mute then .off else chan
        updatedAt := now } : CareTask)
      = updateTaskStatus now
          (mergeTemplate E1 now fresh aqid1 pref chan mute ivl tmpl) := by
    exact CareTask.ext rfl rfl rfl h1.symm h2.symm h3.symm rfl rfl rfl
      h4.symm h5.symm rfl rfl h6.symm
  rw [hadj]
  have hs : TaskSettled now (updateTaskStatus now
      (mergeTemplate E1 now fresh aqid1 pref chan mute ivl tmpl)) :=
    settled_mergeTemplate E1 now fresh aqid1 pref chan mute ivl tmpl
  rw [updateTaskStatus_of_settled now _ hs, updateTaskStatus_of_settled now _ hs]

/-- C8: running the recalculation a second time with no intervening
mutation and the same clock reading returns the same task list and leaves
the store untouched: derived fields are unchanged, every task keeps its
identity (id, createdAt — indeed the whole record), and no task is
duplicated or created (the second id supply is never used). -/
theorem claim_C8_recalc_idempotent (store : DataStore) (now : Time)
    (fresh fresh2 : CareTaskType → String) (aquarium : Aquarium) (user : User)
    (a1 : Aquarium)
    (h1 : mapGet (recalculateAquariumInsights store now fresh aquarium
        user).2.aquariums aquarium.id = some a1) :
    recalculateAquariumInsights
        (recalculateAquariumInsights store now fresh aquarium user).2
        now fresh2 a1 user
      = ((recalculateAquariumInsights store now fresh aquarium user).1,
         (recalculateAquariumInsights store now fresh aquarium user).2) := by
  have ha1 : a1 = recalcUpdatedAquarium store now aquarium := by
    rw [recalc_snd_aquariums, mapGet_mapSet_self] at h1
    exact (Option.some_injective _ h1).symm
  subst ha1
  have hfs := recalc_snd_fishSpecies store now fresh aquarium user
  have hstockL := recalc_snd_aquariumStock store now fresh aquarium user
  have hct := recalc_snd_careTasks store now fresh aquarium user
  have hbio : ∀ l, summarizeBioLoad
      (recalculateAquariumInsights store now fresh aquarium user).2
      (recalcUpdatedAquarium store now aquarium) l
      = summarizeBioLoad store aquarium l :=
    fun l => summarizeBioLoad_congr _ _ _ _ hfs rfl l
  have hcompat : ∀ l, evaluateCompatibility
      (recalculateAquariumInsights store now fresh aquarium user).2 l
      = evaluateCompatibility store l :=
    fun l => evaluateCompatibility_congr _ _ hfs l
  have hfst : (recalculateAquariumInsights
      (recalculateAquariumInsights store now fresh aquarium user).2
      now fresh2 (recalcUpdatedAquarium store now aquarium) user).1
      = (recalculateAquariumInsights store now fresh aquarium user).1 := by
    rw [recalc_fst]
    simp only [recalcUpdatedAquarium_id, hstockL, hct, mapGet_mapSet_self,
      Option.getD_some, hbio]
    by_cases hc : ((mapGet store.aquariumStock aquarium.id).getD []).length > 0
    · rw [if_pos hc]
      have htasks1 : (recalculateAquariumInsights store now fresh aquarium user).1
          = baseTasks.map (fun tmpl => updateTaskStatus now
            (mergeTemplate ((mapGet store.careTasks aquarium.id).getD []) now
              fresh aquarium.id user.notificationSettings.preferredTime
              user.notificationSettings.channel
              user.notificationSettings.muteFeedingReminders
              (intervalMatrix (summarizeBioLoad store aquarium
                ((mapGet store.aquariumStock aquarium.id).getD [])).status)
              tmpl)) := by
        rw [recalc_fst, if_pos hc]
      rw [htasks1]
      exact merge_map_stable _ now fresh fresh2 aquarium.id aquarium.id _ _ _ _
    · rw [if_neg hc, recalc_fst, if_neg hc]
  have hctget : mapGet (recalculateAquariumInsights store now fresh aquarium
      user).2.careTasks aquarium.id
      = some ((recalculateAquariumInsights store now fresh aquarium user).1) := by
    rw [hct]
    exact mapGet_mapSet_self _ _ _
  have hua2 : recalcUpdatedAquarium
      (recalculateAquariumInsights store now fresh aquarium user).2 now
      (recalcUpdatedAquarium store now aquarium)
      = recalcUpdatedAquarium store now aquarium := by
    rw [recalcUpdatedAquarium_eq
      (recalculateAquariumInsights store now fresh aquarium user).2 now
      (recalcUpdatedAquarium store now aquarium)]
    simp only [recalcUpdatedAquarium_id, hstockL, hbio, hcompat]
    rfl
  have hsnd : (recalculateAquariumInsights
      (recalculateAquariumInsights store now fresh aquarium user).2
      now fresh2 (recalcUpdatedAquarium store now aquarium) user).2
      = (recalculateAquariumInsights store now fresh aquarium user).2 := by
    rw [recalc_snd, hua2, hfst]
    rw [show (recalcUpdatedAquarium store now aquarium).id = aquarium.id from rfl]
    rw [mapSet_eq_self _ _ _ h1, mapSet_eq_self _ _ _ hctget]
  exact Prod.ext hfst hsnd

/-- C8 witness: a second recalculation of the concrete service store with
a different id supply returns the same task list and the same store. -/
theorem claim_C8_recalc_idempotent_witness :
    recalculateAquariumInsights
        (recalculateAquariumInsights serviceStore nowTenAM sampleFresh
          sampleAquarium sampleUser).2
        nowTenAM (fun _ => "second-run-id")
        (recalcUpdatedAquarium serviceStore nowTenAM sampleAquarium) sampleUser
      = ((recalculateAquariumInsights serviceStore nowTenAM sampleFresh
          sampleAquarium sampleUser).1,
         (recalculateAquariumInsights serviceStore nowTenAM sampleFresh
          sampleAquarium sampleUser).2) :=
  claim_C8_recalc_idempotent serviceStore nowTenAM sampleFresh
    (fun _ => "second-run-id") sampleAquarium sampleUser _
    (by rw [recalc_snd_aquariums]
        exact mapGet_mapSet_self _ _ _)
